import Mathlib

/-!
Shallow embedding of the satori-backend estimation engines and the
estimate-snapshot state machine, with theorems checking the specification
claims against the code.  All money and hour arithmetic is modelled with
rationals; Python's `round(x, 2)` is modelled by `round2`.
-/

namespace Satori

/-- Models Python `round(x, 2)`: rounding to hundredths. -/
def round2 (x : ℚ) : ℚ := ((round (100 * x) : ℤ) : ℚ) / 100

theorem round2_zero : round2 0 = 0 := by
  simp [round2]

theorem round2_idem (x : ℚ) : round2 (round2 x) = round2 x := by
  have h : (100 : ℚ) * (((round (100 * x) : ℤ) : ℚ) / 100) = ((round (100 * x) : ℤ) : ℚ) := by
    field_simp
  unfold round2
  rw [h, round_intCast]

/-- Association list standing for a Python `dict` keyed by role name. -/
abbrev RoleMap := List (String × ℚ)

/-- Python dict update `m[k] = m.get(k, 0.0) + v`. -/
def addTo (m : RoleMap) (k : String) (v : ℚ) : RoleMap :=
  if m.any (fun e => e.1 = k) then
    m.map (fun e => if e.1 = k then (e.1, e.2 + v) else e)
  else m ++ [(k, v)]

/-- Python dict assignment `m[k] = v`. -/
def setTo (m : RoleMap) (k : String) (v : ℚ) : RoleMap :=
  if m.any (fun e => e.1 = k) then
    m.map (fun e => if e.1 = k then (e.1, v) else e)
  else m ++ [(k, v)]

/-- Update the first element of a list satisfying `p` (an ORM row mutation). -/
def updateFirst (p : α → Bool) (g : α → α) : List α → List α
  | [] => []
  | x :: xs => if p x then g x :: xs else x :: updateFirst p g xs

/-! ## HRS estimator: schemas (app/schemas/hrs_estimator.py) -/

structure AsbestosLineIn where
  component_name : String
  unit_label : String
  actuals : ℚ
  bulks_per_unit : ℚ
deriving DecidableEq, Repr

structure LeadLineIn where
  component_name : String
  xrf_shots : ℚ
  chips_wipes : ℚ
deriving DecidableEq, Repr

structure MoldLineIn where
  component_name : String
  tape_lift : ℚ
  spore_trap : ℚ
  culturable : ℚ
deriving DecidableEq, Repr

structure ORMIn where
  building_total_sf : Option ℚ
  hours : ℚ
deriving DecidableEq, Repr

structure HRSEstimationCreate where
  project_name : Option String
  override_minutes_asbestos : Option ℚ
  override_minutes_xrf : Option ℚ
  override_minutes_lead : Option ℚ
  override_minutes_mold : Option ℚ
  field_staff_count : ℤ
  efficiency_factor : Option ℚ
  asbestos_lines : List AsbestosLineIn
  lead_lines : List LeadLineIn
  mold_lines : List MoldLineIn
  orm : Option ORMIn
  selected_role : Option String
  manual_labor_hours : Option (List (String × ℚ))
deriving DecidableEq, Repr

/-! ## HRS estimator: router computation (app/routers/hrs_estimator.py) -/

/-- `derive_efficiency_factor` from app/routers/hrs_estimator.py. -/
def derive_efficiency_factor (staff_count : ℤ) : ℚ :=
  if staff_count ≤ 1 then 1
  else if staff_count = 2 then 7/10
  else 3/5

structure AsbestosRow where
  component_name : String
  unit_label : String
  actuals : ℚ
  bulks_per_unit : ℚ
  bulk_summary : ℚ
deriving DecidableEq, Repr

structure LeadRow where
  component_name : String
  xrf_shots : ℚ
  chips_wipes : ℚ
deriving DecidableEq, Repr

structure MoldRow where
  component_name : String
  tape_lift : ℚ
  spore_trap : ℚ
  culturable : ℚ
deriving DecidableEq, Repr

structure ORMRow where
  building_total_sf : Option ℚ
  hours : ℚ
deriving DecidableEq, Repr

/-- The persisted `HRSEstimation` header row, with its child line rows inlined. -/
structure HRSEstimation where
  project_name : Option String
  field_staff_count : ℤ
  efficiency_factor : ℚ
  total_plm : ℚ
  total_xrf_shots : ℚ
  total_chips_wipes : ℚ
  total_tape_lift : ℚ
  total_spore_trap : ℚ
  total_culturable : ℚ
  orm_hours : ℚ
  suggested_hours_base : ℚ
  suggested_hours_final : ℚ
  selected_role : Option String
  calculated_cost : Option ℚ
  manual_labor_costs : RoleMap
  total_cost : ℚ
  asbestos_lines : List AsbestosRow
  lead_lines : List LeadRow
  mold_lines : List MoldRow
  orm_record : Option ORMRow
deriving DecidableEq, Repr

/-- The manual-labor-cost loop of `create_estimate`: unknown roles are skipped. -/
def manualCostsFold (rates : String → Option ℚ) (items : List (String × ℚ)) : RoleMap × ℚ :=
  items.foldl
    (fun acc it =>
      match rates it.1 with
      | none => acc
      | some r => (setTo acc.1 it.1 (round2 (it.2 * r)), acc.2 + round2 (it.2 * r)))
    ([], 0)

/-- `create_estimate` from app/routers/hrs_estimator.py (the pure computation;
`rates` is the LaborRate lookup).  `if selected_role:` is Python truthiness,
so only a non-empty `selected_role` triggers the LaborRate lookup and its
HTTP 400 on a missing row; `None` and the empty string skip it. -/
def create_estimate (rates : String → Option ℚ) (p : HRSEstimationCreate) :
    Except String HRSEstimation :=
  let eff := match p.efficiency_factor with
    | some e => e
    | none => derive_efficiency_factor p.field_staff_count
  let total_plm := (p.asbestos_lines.map (fun l => l.actuals * l.bulks_per_unit)).sum
  let total_xrf := (p.lead_lines.map (fun l => l.xrf_shots)).sum
  let total_chips := (p.lead_lines.map (fun l => l.chips_wipes)).sum
  let total_tape := (p.mold_lines.map (fun l => l.tape_lift)).sum
  let total_spore := (p.mold_lines.map (fun l => l.spore_trap)).sum
  let total_cult := (p.mold_lines.map (fun l => l.culturable)).sum
  let orm_hours := match p.orm with
    | some o => o.hours
    | none => 0
  let m_asb := p.override_minutes_asbestos.getD 15
  let m_xrf := p.override_minutes_xrf.getD 3
  let m_lead := p.override_minutes_lead.getD 10
  let m_mold := p.override_minutes_mold.getD 20
  let h_asb := m_asb * total_plm / 60
  let h_xrf := m_xrf * total_xrf / 60
  let h_lead := m_lead * total_chips / 60
  let h_mold := m_mold * (total_tape + total_spore + total_cult) / 60
  let h_orm := orm_hours
  let suggested_base := h_asb + h_xrf + h_lead + h_mold + h_orm
  let field_hours_base := h_asb + h_xrf + h_lead + h_mold
  let shb := round2 suggested_base
  let shf := round2 (field_hours_base * eff + h_orm)
  let manual := (manualCostsFold rates (p.manual_labor_hours.getD []))
  let build : Option ℚ → HRSEstimation := fun calculated_cost =>
    { project_name := p.project_name
      field_staff_count := p.field_staff_count
      efficiency_factor := eff
      total_plm := total_plm
      total_xrf_shots := total_xrf
      total_chips_wipes := total_chips
      total_tape_lift := total_tape
      total_spore_trap := total_spore
      total_culturable := total_cult
      orm_hours := orm_hours
      suggested_hours_base := shb
      suggested_hours_final := shf
      selected_role := p.selected_role
      calculated_cost := calculated_cost
      manual_labor_costs := manual.1
      total_cost := round2 (calculated_cost.getD 0 + manual.2)
      asbestos_lines := p.asbestos_lines.map (fun l =>
        { component_name := l.component_name, unit_label := l.unit_label,
          actuals := l.actuals, bulks_per_unit := l.bulks_per_unit,
          bulk_summary := l.actuals * l.bulks_per_unit })
      lead_lines := p.lead_lines.map (fun l =>
        { component_name := l.component_name, xrf_shots := l.xrf_shots,
          chips_wipes := l.chips_wipes })
      mold_lines := p.mold_lines.map (fun l =>
        { component_name := l.component_name, tape_lift := l.tape_lift,
          spore_trap := l.spore_trap, culturable := l.culturable })
      orm_record := p.orm.map (fun o =>
        { building_total_sf := o.building_total_sf, hours := o.hours }) }
  match p.selected_role with
  | some role =>
    if role = "" then .ok (build none)
    else
      match rates role with
      | none => .error ("Invalid selected_role: " ++ role)
      | some rate => .ok (build (some (round2 (shf * rate))))
  | none => .ok (build none)

/-! ## Logistics: schemas (app/schemas/logistics.py) -/

structure RoundtripDrivingIn where
  project_location : Option String
  num_vehicles : ℤ
  one_way_miles : ℚ
  drive_time_hours : Option ℚ
  project_duration_days : ℤ
  mpg : Option ℚ
  cost_per_gallon : Option ℚ
  cost_per_mile : Option ℚ
  anchorage_flat_fee : Option ℚ
deriving DecidableEq, Repr

structure DailyDrivingIn where
  site_location : Option String
  lodging_location : Option String
  daily_miles : ℚ
  daily_drive_time_hours : Option ℚ
  project_duration_days : ℤ
  mpg : Option ℚ
  cost_per_gallon : Option ℚ
  cost_per_mile : Option ℚ
deriving DecidableEq, Repr

structure FlightsIn where
  project_location : Option String
  num_tickets : ℤ
  roundtrip_cost_per_ticket : ℚ
  flight_time_hours_one_way : ℚ
  layover_city : Option String
  has_overnight : Bool
  layover_hotel_name : Option String
  layover_cost_per_night : Option ℚ
  layover_rooms : Option ℤ
deriving DecidableEq, Repr

structure RentalIn where
  project_location : Option String
  num_vehicles : ℤ
  vehicle_category : Option String
  daily_rate : Option ℚ
  weekly_rate : Option ℚ
  monthly_rate : Option ℚ
  rental_period_type : Option String
  rental_days : ℤ
  fuel_cost_estimate : Option ℚ
deriving DecidableEq, Repr

structure LodgingIn where
  project_location : Option String
  hotel_name : Option String
  night_cost_with_taxes : ℚ
  project_duration_days : ℤ
  num_staff : ℤ
deriving DecidableEq, Repr

structure StaffLineIn where
  role : String
  count : ℤ
deriving DecidableEq, Repr

structure LogisticsEstimationCreate where
  project_name : Option String
  site_access_mode : String
  is_local_project : Bool
  use_client_vehicle : Bool
  professional_role : Option String
  num_staff : ℤ
  staff : Option (List StaffLineIn)
  rate_multiplier : ℚ
  per_diem_rate : ℚ
  roundtrip_driving : Option RoundtripDrivingIn
  daily_driving : Option DailyDrivingIn
  flights : Option FlightsIn
  rental : Option RentalIn
  lodging : Option LodgingIn
deriving DecidableEq, Repr

/-! ## Logistics: router computation (app/routers/logistics.py) -/

/-- Python `str.strip` / `str.lower` helpers (structural, over char lists). -/
def isSpaceChar (c : Char) : Bool := c.toNat = 32 ∨ (9 ≤ c.toNat ∧ c.toNat ≤ 13)

def dropLeadingSpace : List Char → List Char
  | [] => []
  | c :: cs => if isSpaceChar c then dropLeadingSpace cs else c :: cs

def pyStrip (s : String) : String :=
  ⟨(dropLeadingSpace (dropLeadingSpace s.data).reverse).reverse⟩

def lowerChar (c : Char) : Char :=
  if 65 ≤ c.toNat ∧ c.toNat ≤ 90 then Char.ofNat (c.toNat + 32) else c

def pyLower (s : String) : String := ⟨s.data.map lowerChar⟩

/-- `_is_anchorage` from app/routers/logistics.py:
`loc.strip().lower() == "anchorage"` on a truthy location. -/
def _is_anchorage : Option String → Bool
  | none => false
  | some loc => if loc = "" then false else pyLower (pyStrip loc) = "anchorage"

/-- `_get_labor_rate`: returns `none` when the role is falsy or has no
LaborRate row. -/
def _get_labor_rate (rates : String → Option ℚ) (role : String) : Option ℚ :=
  if role = "" then none else rates role

/-- `_rate_for_role` (inner helper of `create_logistics_estimate`): a missing
labor rate is treated as 0.0. -/
def _rate_for_role (rates : String → Option ℚ) (role : String) : ℚ :=
  (_get_labor_rate rates role).getD 0

structure StaffEntry where
  role : String
  count : ℤ
deriving DecidableEq, Repr

/-- The staff-normalization prologue of `create_logistics_estimate`. -/
def normalizeStaff (staff : Option (List StaffLineIn)) (professional_role : Option String)
    (num_staff : ℤ) : List StaffEntry :=
  match staff with
  | some (x :: xs) =>
    (x :: xs).filterMap (fun s => if s.count > 0 then some ⟨s.role, s.count⟩ else none)
  | _ =>
    match professional_role with
    | some r => if r ≠ "" ∧ num_staff > 0 then [⟨r, num_staff⟩] else []
    | none => []

/-- Guarded rate multiplier (never ≤ 0). -/
def effRateMultiplier (rm : ℚ) : ℚ := if rm > 0 then rm else 1

/-- Legacy single-role rate: `_rate_for_role(...) if payload.professional_role else 0.0`. -/
def legacyRate (rateQ : String → ℚ) : Option String → ℚ
  | some r => if r = "" then 0 else rateQ r
  | none => 0

/-- Per-block staff labor fold: accumulates hours/costs into the global
role maps and the block totals.  Per-role costs are rounded, the block
hours total is not. -/
structure LaborAcc where
  sh : RoleMap
  sc : RoleMap
  hoursTotal : ℚ
  costTotal : ℚ
deriving Repr

def staffLabor (rateQ : String → ℚ) (mult hpp : ℚ) (staff : List StaffEntry)
    (acc : LaborAcc) : LaborAcc :=
  staff.foldl
    (fun a e =>
      let roleHours := hpp * (e.count : ℚ)
      let roleCost := round2 (roleHours * rateQ e.role * mult)
      { sh := addTo a.sh e.role (round2 roleHours)
        sc := addTo a.sc e.role roleCost
        hoursTotal := a.hoursTotal + roleHours
        costTotal := a.costTotal + roleCost })
    acc

/-- One-way drive time: auto-derived at 55 MPH when absent or nonpositive. -/
def deriveOneWayTime (dt : Option ℚ) (miles_per_day : ℚ) : ℚ :=
  let dt1 : Option ℚ :=
    if (dt = none ∨ dt.getD 0 ≤ 0) ∧ miles_per_day > 0 then
      some (miles_per_day / 55 / 2)
    else dt
  max (dt1.getD 0) 0

/-- Roundtrip vehicle cost: Anchorage flat daily fee overrides both
cost-per-mile and MPG-based fuel costing. -/
def roundtripVehicleCost (rt : RoundtripDrivingIn) (roundtrip_days : ℤ)
    (roundtrip_miles : ℚ) : ℚ :=
  if _is_anchorage rt.project_location then
    rt.anchorage_flat_fee.getD 45 * (roundtrip_days : ℚ)
  else
    match rt.cost_per_mile with
    | some c => roundtrip_miles * max c 0
    | none =>
      match rt.mpg, rt.cost_per_gallon with
      | some m, some g =>
        if m ≠ 0 ∧ g ≠ 0 then (if m > 0 then roundtrip_miles / m else 0) * max g 0
        else 0
      | _, _ => 0

/-- Daily-driving mileage/fuel cost (the non-Anchorage case). -/
def dailyVehicleCostRaw (dd : DailyDrivingIn) (miles_total : ℚ) : ℚ :=
  match dd.cost_per_mile with
  | some c => miles_total * max c 0
  | none =>
    match dd.mpg, dd.cost_per_gallon with
    | some m, some g =>
      if m ≠ 0 ∧ g ≠ 0 then (if m > 0 then miles_total / m else 0) * max g 0
      else 0
    | _, _ => 0

structure RoundtripOut where
  days : ℤ
  miles : ℚ
  vehicleCost : ℚ
  laborHours : ℚ
  laborCost : ℚ
  anch : Bool
  sh : RoleMap
  sc : RoleMap
deriving Repr

def roundtripBlock (rateQ : String → ℚ) (mult : ℚ) (staff : List StaffEntry)
    (prole : Option String) (numStaff : ℤ) (mode : String)
    (rtIn : Option RoundtripDrivingIn) (sh sc : RoleMap) : RoundtripOut :=
  match rtIn with
  | some rt =>
    if mode = "driving" then
      let days := max rt.project_duration_days 1
      let oneWayMiles := max rt.one_way_miles 0
      let milesPerDay := oneWayMiles * 2
      let miles := milesPerDay * (days : ℚ)
      let anch := _is_anchorage rt.project_location
      let vcost := roundtripVehicleCost rt days miles
      let dtOneWay := deriveOneWayTime rt.drive_time_hours milesPerDay
      let hpp := dtOneWay * 2 * (days : ℚ)
      match staff with
      | e :: es =>
        let acc := staffLabor rateQ mult hpp (e :: es) ⟨sh, sc, 0, 0⟩
        ⟨days, miles, vcost, acc.hoursTotal, acc.costTotal, anch, acc.sh, acc.sc⟩
      | [] =>
        let count := max numStaff 0
        let totalHours := hpp * (count : ℚ)
        let totalCost := totalHours * legacyRate rateQ prole * mult
        match prole with
        | some r =>
          if r ≠ "" then
            ⟨days, miles, vcost, totalHours, totalCost, anch,
              addTo sh r (round2 totalHours), addTo sc r (round2 totalCost)⟩
          else ⟨days, miles, vcost, totalHours, totalCost, anch, sh, sc⟩
        | none => ⟨days, miles, vcost, totalHours, totalCost, anch, sh, sc⟩
    else ⟨0, 0, 0, 0, 0, false, sh, sc⟩
  | none => ⟨0, 0, 0, 0, 0, false, sh, sc⟩

structure DailyOut where
  miles : ℚ
  vehicleCost : ℚ
  laborHours : ℚ
  laborCost : ℚ
  sh : RoleMap
  sc : RoleMap
deriving Repr

def dailyBlock (rateQ : String → ℚ) (mult : ℚ) (staff : List StaffEntry)
    (prole : Option String) (numStaff : ℤ) (anchDriving : Bool) (rtDays : ℤ)
    (ddIn : Option DailyDrivingIn) (sh sc : RoleMap) : DailyOut :=
  match ddIn with
  | some dd =>
    let dailyDays := max (if dd.project_duration_days ≠ 0 then dd.project_duration_days
      else if rtDays ≠ 0 then rtDays else 1) 1
    let milesPerDay := max dd.daily_miles 0
    let milesTotal := milesPerDay * (dailyDays : ℚ)
    let dAnch := _is_anchorage dd.site_location
    let vcost := if ¬anchDriving ∧ ¬dAnch then dailyVehicleCostRaw dd milesTotal else 0
    let dtOneWay := deriveOneWayTime dd.daily_drive_time_hours milesPerDay
    let hpp := dtOneWay * 2 * (dailyDays : ℚ)
    match staff with
    | e :: es =>
      let acc := staffLabor rateQ mult hpp (e :: es) ⟨sh, sc, 0, 0⟩
      ⟨milesTotal, vcost, acc.hoursTotal, acc.costTotal, acc.sh, acc.sc⟩
    | [] =>
      let count := max numStaff 0
      let totalHours := hpp * (count : ℚ)
      let totalCost := totalHours * legacyRate rateQ prole * mult
      match prole with
      | some r =>
        if r ≠ "" then
          ⟨milesTotal, vcost, totalHours, totalCost,
            addTo sh r (round2 totalHours), addTo sc r (round2 totalCost)⟩
        else ⟨milesTotal, vcost, totalHours, totalCost, sh, sc⟩
      | none => ⟨milesTotal, vcost, totalHours, totalCost, sh, sc⟩
  | none => ⟨0, 0, 0, 0, sh, sc⟩

/-- Layover room cost: accrues only with an overnight layover and truthy
cost/rooms. -/
def layoverCost (f : FlightsIn) : ℚ :=
  match f.layover_cost_per_night, f.layover_rooms with
  | some c, some n =>
    if f.has_overnight ∧ c ≠ 0 ∧ n ≠ 0 then max c 0 * ((max n 0 : ℤ) : ℚ) else 0
  | _, _ => 0

structure FlightRaw where
  ticketCost : ℚ
  laborHours : ℚ
  laborCost : ℚ
  layCost : ℚ
deriving Repr

def flightBlock (rateQ : String → ℚ) (mult : ℚ) (staff : List StaffEntry)
    (prole : Option String) (numStaff : ℤ) (mode : String) (isLocal : Bool)
    (fIn : Option FlightsIn) (sh sc : RoleMap) : Option FlightRaw × RoleMap × RoleMap :=
  match fIn with
  | some f =>
    if mode = "flight" ∧ ¬isLocal then
      let numTickets := max f.num_tickets 0
      let ticketPrice := max f.roundtrip_cost_per_ticket 0
      let ticketCost := (numTickets : ℚ) * ticketPrice
      let oneWay := max f.flight_time_hours_one_way 0
      let tpp := oneWay * 2 + 3/2
      match staff with
      | e :: es =>
        let acc := staffLabor rateQ mult tpp (e :: es) ⟨sh, sc, 0, 0⟩
        (some ⟨ticketCost, acc.hoursTotal, acc.costTotal, layoverCost f⟩, acc.sh, acc.sc)
      | [] =>
        let count := max numStaff 0
        let totalHours := tpp * (count : ℚ)
        let rate := match prole with
          | some r => rateQ r
          | none => 0
        let totalCost := totalHours * rate * mult
        match prole with
        | some r =>
          if r ≠ "" then
            (some ⟨ticketCost, totalHours, totalCost, layoverCost f⟩,
              addTo sh r (round2 totalHours), addTo sc r (round2 totalCost))
          else (some ⟨ticketCost, totalHours, totalCost, layoverCost f⟩, sh, sc)
        | none => (some ⟨ticketCost, totalHours, totalCost, layoverCost f⟩, sh, sc)
    else (none, sh, sc)
  | none => (none, sh, sc)

/-- Rental base+fuel cost, or `none` when the rental gate is off. -/
def rentalBlock (mode : String) (isLocal useClientVehicle : Bool)
    (rIn : Option RentalIn) : Option (ℚ × ℚ) :=
  match rIn with
  | some r =>
    if mode = "flight" ∧ ¬isLocal ∧ ¬useClientVehicle then
      let days := max r.rental_days 0
      let base :=
        if r.rental_period_type = some "daily" ∧ r.daily_rate.isSome then
          (days : ℚ) * max (r.daily_rate.getD 0) 0
        else if r.rental_period_type = some "weekly" ∧ r.weekly_rate.isSome then
          (((if days > 0 then (days + 6) / 7 else 0) : ℤ) : ℚ) * max (r.weekly_rate.getD 0) 0
        else if r.rental_period_type = some "monthly" ∧ r.monthly_rate.isSome then
          (((if days > 0 then (days + 29) / 30 else 0) : ℤ) : ℚ) * max (r.monthly_rate.getD 0) 0
        else 0
      some (base, max (r.fuel_cost_estimate.getD 0) 0)
    else none
  | none => none

/-- Lodging room and per-diem totals (0 when local or absent). -/
def lodgingBlock (staff : List StaffEntry) (payloadNumStaff : ℤ) (perDiemRate : ℚ)
    (isLocal : Bool) (lIn : Option LodgingIn) : ℚ × ℚ :=
  match lIn with
  | some l =>
    if ¬isLocal then
      let days := max l.project_duration_days 0
      let staffForLodging :=
        match staff with
        | _ :: _ => (staff.map (·.count)).sum
        | [] =>
          max (if l.num_staff ≠ 0 then l.num_staff
            else if payloadNumStaff ≠ 0 then payloadNumStaff else 0) 0
      let night := max l.night_cost_with_taxes 0
      let room := (staffForLodging : ℚ) * night * (days : ℚ)
      let pd :=
        if staffForLodging > 0 ∧ days > 0 then
          max perDiemRate 0 * (staffForLodging : ℚ) * (days : ℚ)
        else 0
      (room, pd)
    else (0, 0)
  | none => (0, 0)

/-- The persisted `LogisticsEstimation` row (computed fields). -/
structure LogisticsEstimation where
  project_name : Option String
  site_access_mode : String
  is_local_project : Bool
  use_client_vehicle : Bool
  professional_role : Option String
  num_staff : ℤ
  staff_breakdown : Option (List StaffEntry)
  staff_labor_costs : Option RoleMap
  total_staff_count : ℤ
  rate_multiplier : ℚ
  per_diem_rate : ℚ
  roundtrip_driving_miles : ℚ
  daily_driving_miles : ℚ
  total_driving_miles : ℚ
  roundtrip_driving_labor_hours : ℚ
  daily_driving_labor_hours : ℚ
  total_driving_labor_hours : ℚ
  total_driving_fuel_cost : ℚ
  total_driving_labor_cost : ℚ
  total_driving_cost : ℚ
  total_flight_ticket_cost : ℚ
  total_flight_labor_hours : ℚ
  total_flight_labor_cost : ℚ
  total_layover_room_cost : ℚ
  total_flight_cost : ℚ
  total_rental_base_cost : ℚ
  total_rental_fuel_cost : ℚ
  total_rental_cost : ℚ
  total_lodging_room_cost : ℚ
  total_per_diem_cost : ℚ
  total_logistics_cost : ℚ

/-- `staff_list` as normalized by the `create_logistics_estimate` prologue. -/
def staffListOf (p : LogisticsEstimationCreate) : List StaffEntry :=
  normalizeStaff p.staff p.professional_role p.num_staff

/-- The roundtrip-driving block result for a payload. -/
def rtOf (rateQ : String → ℚ) (p : LogisticsEstimationCreate) : RoundtripOut :=
  roundtripBlock rateQ (effRateMultiplier p.rate_multiplier) (staffListOf p)
    p.professional_role p.num_staff p.site_access_mode p.roundtrip_driving [] []

/-- The daily-driving block result (threads the roundtrip role maps). -/
def ddOf (rateQ : String → ℚ) (p : LogisticsEstimationCreate) : DailyOut :=
  dailyBlock rateQ (effRateMultiplier p.rate_multiplier) (staffListOf p)
    p.professional_role p.num_staff (rtOf rateQ p).anch (rtOf rateQ p).days
    p.daily_driving (rtOf rateQ p).sh (rtOf rateQ p).sc

/-- The flights block result (threads the daily-driving role maps). -/
def flOf (rateQ : String → ℚ) (p : LogisticsEstimationCreate) :
    Option FlightRaw × RoleMap × RoleMap :=
  flightBlock rateQ (effRateMultiplier p.rate_multiplier) (staffListOf p)
    p.professional_role p.num_staff p.site_access_mode p.is_local_project
    p.flights (ddOf rateQ p).sh (ddOf rateQ p).sc

/-- The rental block result. -/
def renOf (p : LogisticsEstimationCreate) : Option (ℚ × ℚ) :=
  rentalBlock p.site_access_mode p.is_local_project p.use_client_vehicle p.rental

/-- The lodging block result. -/
def lodgOf (p : LogisticsEstimationCreate) : ℚ × ℚ :=
  lodgingBlock (staffListOf p) p.num_staff p.per_diem_rate p.is_local_project p.lodging

/-- A cost component: rounded to 2 decimals when its block produced output,
0 otherwise. -/
def optRound2 {α} (o : Option α) (g : α → ℚ) : ℚ :=
  match o with
  | some x => round2 (g x)
  | none => 0

/-- The body of `create_logistics_estimate`: every stored field except the
grand total, which the route assigns last from the stored fields. -/
def logisticsBody (rateQ : String → ℚ) (p : LogisticsEstimationCreate) :
    LogisticsEstimation :=
  { project_name := p.project_name
    site_access_mode := if p.site_access_mode = "" then "driving" else p.site_access_mode
    is_local_project := p.is_local_project
    use_client_vehicle := p.use_client_vehicle
    professional_role :=
      if (p.professional_role = none ∨ p.professional_role = some "") ∧
          (staffListOf p).length = 1 then
        ((staffListOf p).head?.map (·.role)).orElse (fun _ => p.professional_role)
      else p.professional_role
    num_staff := if p.num_staff ≠ 0 then p.num_staff
      else ((staffListOf p).map (·.count)).sum
    staff_breakdown := if staffListOf p = [] then none else some (staffListOf p)
    staff_labor_costs := if (flOf rateQ p).2.2 = [] then none else some (flOf rateQ p).2.2
    total_staff_count := ((staffListOf p).map (·.count)).sum
    rate_multiplier := effRateMultiplier p.rate_multiplier
    per_diem_rate := p.per_diem_rate
    roundtrip_driving_miles := round2 (rtOf rateQ p).miles
    daily_driving_miles := round2 (ddOf rateQ p).miles
    total_driving_miles := round2 ((rtOf rateQ p).miles + (ddOf rateQ p).miles)
    roundtrip_driving_labor_hours := round2 (rtOf rateQ p).laborHours
    daily_driving_labor_hours := round2 (ddOf rateQ p).laborHours
    total_driving_labor_hours := round2 ((rtOf rateQ p).laborHours + (ddOf rateQ p).laborHours)
    total_driving_fuel_cost := round2 ((rtOf rateQ p).vehicleCost + (ddOf rateQ p).vehicleCost)
    total_driving_labor_cost := round2 ((rtOf rateQ p).laborCost + (ddOf rateQ p).laborCost)
    total_driving_cost := round2 (round2 ((rtOf rateQ p).vehicleCost + (ddOf rateQ p).vehicleCost) +
      round2 ((rtOf rateQ p).laborCost + (ddOf rateQ p).laborCost))
    total_flight_ticket_cost := optRound2 (flOf rateQ p).1 (fun fr => fr.ticketCost)
    total_flight_labor_hours := optRound2 (flOf rateQ p).1 (fun fr => fr.laborHours)
    total_flight_labor_cost := optRound2 (flOf rateQ p).1 (fun fr => fr.laborCost)
    total_layover_room_cost := optRound2 (flOf rateQ p).1 (fun fr => fr.layCost)
    total_flight_cost := optRound2 (flOf rateQ p).1
      (fun fr => fr.ticketCost + fr.laborCost + fr.layCost)
    total_rental_base_cost := optRound2 (renOf p) (fun bf => bf.1)
    total_rental_fuel_cost := optRound2 (renOf p) (fun bf => bf.2)
    total_rental_cost := optRound2 (renOf p) (fun bf => bf.1 + bf.2)
    total_lodging_room_cost := round2 (lodgOf p).1
    total_per_diem_cost := round2 (lodgOf p).2
    total_logistics_cost := 0 }

/-- `create_logistics_estimate`, parametrized by the per-role rate function
(`rateQ` is `_rate_for_role`): the grand total is computed last from the
five stored cost fields, mirroring
`est.total_logistics_cost = round(est.total_driving_cost + ..., 2)`. -/
def createLogisticsCore (rateQ : String → ℚ) (p : LogisticsEstimationCreate) :
    LogisticsEstimation :=
  let e := logisticsBody rateQ p
  { e with total_logistics_cost := round2 (e.total_driving_cost + e.total_flight_cost +
      e.total_rental_cost + e.total_lodging_room_cost + e.total_per_diem_cost) }

/-- `create_logistics_estimate` from app/routers/logistics.py. -/
def create_logistics_estimate (rates : String → Option ℚ)
    (p : LogisticsEstimationCreate) : LogisticsEstimation :=
  createLogisticsCore (_rate_for_role rates) p

/-! ## Data model rows (app/models) -/

/-- The totals that `save_module_to_snapshot` reads out of a module's
`outputs` JSON blob; the rest of the blob is uninterpreted. -/
structure OutputsBlob where
  total_cost : Option ℚ
  total_logistics_cost : Option ℚ
deriving DecidableEq, Repr

/-- One snapshot slot: `{inputs: ..., outputs: ...}`.  `outputs = none`
models an empty (falsy) outputs dict. -/
structure ModuleData where
  inputs : String
  outputs : Option OutputsBlob
deriving DecidableEq, Repr

/-- An `EstimateSnapshot` row. -/
structure Snap where
  id : ℕ
  project_id : ℕ
  project_name : Option String
  snapshot_name : Option String
  is_active : Bool
  hrs_estimator_data : Option ModuleData
  lab_fees_data : Option ModuleData
  logistics_data : Option ModuleData
  created_at : ℕ
  updated_at : ℕ
deriving DecidableEq, Repr

/-- A `Project` row. -/
structure Project where
  id : ℕ
  name : String
  description : Option String
  address : Option String
  hrs_estimator_total : Option ℚ
  lab_fees_total : Option ℚ
  logistics_total : Option ℚ
  grand_total : Option ℚ
  latest_estimate_date : Option ℕ
  latest_snapshot_id : Option ℕ
  status : Option String
  created_at : ℕ
  updated_at : ℕ
deriving DecidableEq, Repr

/-- A `ProjectEstimateSummary` row (breakdown blob uninterpreted). -/
structure SummaryRow where
  project_id : ℕ
  project_name : Option String
  module_name : String
  estimate_total : ℚ
  updated_at : ℕ
deriving DecidableEq, Repr

structure ServiceCategoryRow where
  id : ℕ
  name : String
deriving DecidableEq, Repr

structure TestRow where
  id : ℕ
  name : String
  service_category_id : ℕ
deriving DecidableEq, Repr

structure TurnTimeRow where
  id : ℕ
  label : String
deriving DecidableEq, Repr

/-- A lab `Rate` row. -/
structure RateRow where
  id : ℕ
  test_id : ℕ
  turn_time_id : ℕ
  lab_id : ℕ
  price : ℚ
  sample_count : Option ℚ
deriving DecidableEq, Repr

structure StaffAssignmentIn where
  role : String
  count : ℤ
  hours_per_person : ℚ
deriving DecidableEq, Repr

structure LabFeesOrderCreate where
  project_name : Option String
  hrs_estimation_id : Option ℕ
  order_details : Option (List (ℕ × List (ℕ × ℚ)))
  staff_assignments : Option (List StaffAssignmentIn)
deriving DecidableEq, Repr

structure StaffAssignmentRow where
  role : String
  count : ℤ
  hours_per_person : ℚ
  total_hours : ℚ
  hourly_rate : ℚ
  total_cost : ℚ
deriving DecidableEq, Repr

structure StaffBreakdownEntry where
  role : String
  count : ℤ
  total_hours : ℚ
deriving DecidableEq, Repr

/-- A `LabFeesOrder` row with its staff-assignment child rows inlined. -/
structure LabFeesOrderRow where
  project_name : Option String
  hrs_estimation_id : Option ℕ
  order_details : Option (List (ℕ × List (ℕ × ℚ)))
  total_samples : ℚ
  total_lab_fees_cost : ℚ
  total_staff_labor_cost : ℚ
  total_cost : ℚ
  staff_breakdown : List StaffBreakdownEntry
  staff_labor_costs : RoleMap
  staff_assignments : List StaffAssignmentRow
deriving DecidableEq, Repr

/-- The database state touched by the operations under verification.
`now` is the transaction clock used for created/updated timestamps. -/
structure DB where
  projects : List Project
  snapshots : List Snap
  summaries : List SummaryRow
  labor_rates : List (String × ℚ)
  service_categories : List ServiceCategoryRow
  tests : List TestRow
  turn_times : List TurnTimeRow
  lab_rates : List RateRow
  hrs_estimations : List HRSEstimation
  lab_orders : List LabFeesOrderRow
  next_project_id : ℕ
  next_snapshot_id : ℕ
  now : ℕ

def lookupLaborRate (db : DB) (role : String) : Option ℚ :=
  (db.labor_rates.find? (fun e => e.1 = role)).map (·.2)

/-! ## Project utilities (app/utils/project.py) -/

/-- Most-recently-updated row first (`order_by(updated_at.desc()).first()`). -/
def pickLatest : List Project → Option Project
  | [] => none
  | p :: rest =>
    match pickLatest rest with
    | none => some p
    | some q => if q.updated_at > p.updated_at then some q else some p

/-- `get_or_create_project`: raises ValueError on an empty name. -/
def get_or_create_project (db : DB) (project_name : String) :
    Except String (Project × DB) :=
  if project_name = "" then .error "Project name cannot be empty"
  else
    match pickLatest (db.projects.filter (fun p => p.name = project_name)) with
    | some p => .ok (p, db)
    | none =>
      let p : Project :=
        { id := db.next_project_id, name := project_name, description := none,
          address := none, hrs_estimator_total := none, lab_fees_total := none,
          logistics_total := none, grand_total := none, latest_estimate_date := none,
          latest_snapshot_id := none, status := some "active",
          created_at := db.now, updated_at := db.now }
      let db1 := { db with
        projects := db.projects ++ [p]
        next_project_id := db.next_project_id + 1 }
      .ok (p, db1)

/-- `update_project_summary` from app/utils/project.py. -/
def update_project_summary (db : DB) (project_id : ℕ) (hrs lab log : Option ℚ)
    (latest_snapshot_id : Option ℕ) : DB :=
  match db.projects.find? (fun p => p.id = project_id) with
  | none => db
  | some _ =>
    let g : Project → Project := fun p =>
      let newH := match hrs with
        | some x => some x
        | none => p.hrs_estimator_total
      let newL := match lab with
        | some x => some x
        | none => p.lab_fees_total
      let newG := match log with
        | some x => some x
        | none => p.logistics_total
      let newS := match latest_snapshot_id with
        | some x => some x
        | none => p.latest_snapshot_id
      let th := newH.getD 0
      let tl := newL.getD 0
      let tg := newG.getD 0
      { p with
        hrs_estimator_total := newH
        lab_fees_total := newL
        logistics_total := newG
        latest_snapshot_id := newS
        grand_total := if th ≠ 0 ∨ tl ≠ 0 ∨ tg ≠ 0 then some (th + tl + tg) else none
        latest_estimate_date := some db.now
        updated_at := db.now }
    { db with projects := updateFirst (fun p => decide (p.id = project_id)) g db.projects }

/-! ## Snapshot store (app/utils/estimate_snapshot.py, app/routers/estimate_snapshot.py) -/

/-- Filter for the active snapshot of a project. -/
def activePred (pid : ℕ) (s : Snap) : Bool := decide (s.project_id = pid) && s.is_active

/-- Write a module's `{inputs, outputs}` into the matching snapshot slot. -/
def setModuleData (module_name : String) (md : ModuleData) (s : Snap) : Snap :=
  if module_name = "hrs_estimator" then { s with hrs_estimator_data := some md }
  else if module_name = "lab" then { s with lab_fees_data := some md }
  else if module_name = "logistics" then { s with logistics_data := some md }
  else s

/-- `save_module_to_snapshot` from app/utils/estimate_snapshot.py. -/
def save_module_to_snapshot (db : DB) (project_name : Option String) (module_name : String)
    (inputs : String) (outputs : Option OutputsBlob) : Except String (Option ℕ × DB) :=
  match project_name with
  | none => .ok (none, db)
  | some name =>
    if name = "" then .ok (none, db)
    else
      match get_or_create_project db name with
      | .error e => .error e
      | .ok (pr, db1) =>
        let pid := pr.id
        let md : ModuleData := ⟨inputs, outputs⟩
        let step : ℕ × DB :=
          match db1.snapshots.find? (activePred pid) with
          | some s =>
            let g : Snap → Snap := fun t =>
              { setModuleData module_name md t with
                project_name := some name, updated_at := db1.now }
            (s.id, { db1 with snapshots := updateFirst (activePred pid) g db1.snapshots })
          | none =>
            let deact := db1.snapshots.map
              (fun t => if activePred pid t then { t with is_active := false } else t)
            let snap : Snap :=
              { id := db1.next_snapshot_id, project_id := pid, project_name := some name,
                snapshot_name := none, is_active := true,
                hrs_estimator_data := if module_name = "hrs_estimator" then some md else none,
                lab_fees_data := if module_name = "lab" then some md else none,
                logistics_data := if module_name = "logistics" then some md else none,
                created_at := db1.now, updated_at := db1.now }
            let db1a := { db1 with
              snapshots := deact ++ [snap]
              next_snapshot_id := db1.next_snapshot_id + 1 }
            (db1.next_snapshot_id, db1a)
        let hrs_total := if module_name = "hrs_estimator" then outputs.bind (·.total_cost) else none
        let lab_total := if module_name = "lab" then outputs.bind (·.total_cost) else none
        let log_total :=
          if module_name = "logistics" then outputs.bind (·.total_logistics_cost) else none
        .ok (some step.1,
          update_project_summary step.2 pid hrs_total lab_total log_total (some step.1))

/-- `create_new_snapshot_from_active` from app/utils/estimate_snapshot.py. -/
def create_new_snapshot_from_active (db : DB) (project_name : String)
    (snapshot_name : Option String) : Except String (ℕ × DB) :=
  match get_or_create_project db project_name with
  | .error e => .error e
  | .ok (pr, db1) =>
    let pid := pr.id
    match db1.snapshots.find? (activePred pid) with
    | none =>
      let snap : Snap :=
        { id := db1.next_snapshot_id, project_id := pid,
          project_name := some project_name, snapshot_name := snapshot_name, is_active := true,
          hrs_estimator_data := none, lab_fees_data := none, logistics_data := none,
          created_at := db1.now, updated_at := db1.now }
      let db1a := { db1 with
        snapshots := db1.snapshots ++ [snap]
        next_snapshot_id := db1.next_snapshot_id + 1 }
      .ok (db1.next_snapshot_id, db1a)
    | some a =>
      let g : Snap → Snap := fun t => { t with is_active := false, updated_at := db1.now }
      let db2 := { db1 with snapshots := updateFirst (activePred pid) g db1.snapshots }
      let snap : Snap :=
        { id := db2.next_snapshot_id, project_id := pid,
          project_name := some project_name, snapshot_name := snapshot_name, is_active := true,
          hrs_estimator_data := a.hrs_estimator_data, lab_fees_data := a.lab_fees_data,
          logistics_data := a.logistics_data, created_at := db2.now, updated_at := db2.now }
      let db3 := { db2 with
        snapshots := db2.snapshots ++ [snap]
        next_snapshot_id := db2.next_snapshot_id + 1 }
      .ok (db2.next_snapshot_id, db3)

/-- ORM attribute assignment of `is_active`; bumps `updated_at` only when the
value actually changes (SQLAlchemy onupdate fires only for dirty rows). -/
def setActiveFlag (now : ℕ) (b : Bool) (s : Snap) : Snap :=
  if s.is_active = b then s else { s with is_active := b, updated_at := now }

/-- Force every remaining snapshot of the project inactive. -/
def deactivateAllFor (now pid : ℕ) : List Snap → List Snap
  | [] => []
  | s :: rest =>
    (if s.project_id = pid then setActiveFlag now false s else s) :: deactivateAllFor now pid rest

/-- Re-election after deleting the active snapshot: the first remaining
snapshot of the project with the maximal `updated_at` becomes active, all
its other snapshots are forced inactive. -/
def reelect (now pid best : ℕ) : List Snap → List Snap
  | [] => []
  | s :: rest =>
    if s.project_id = pid then
      if s.updated_at = best then setActiveFlag now true s :: deactivateAllFor now pid rest
      else setActiveFlag now false s :: reelect now pid best rest
    else s :: reelect now pid best rest

/-- Maximal `updated_at` among a list of snapshots. -/
def maxUpdated : List Snap → Option ℕ
  | [] => none
  | s :: rest =>
    match maxUpdated rest with
    | none => some s.updated_at
    | some m => some (max s.updated_at m)

/-- `delete_snapshot` from app/routers/estimate_snapshot.py.  Returns
`(was_active, new_active_set, db)`. -/
def delete_snapshot (db : DB) (snapshot_id : ℕ) : Except String (Bool × Bool × DB) :=
  match db.snapshots.find? (fun s => s.id = snapshot_id) with
  | none => .error "Snapshot not found"
  | some s =>
    let pid := s.project_id
    let rest := db.snapshots.eraseP (fun t => decide (t.id = snapshot_id))
    if s.is_active then
      match maxUpdated (rest.filter (fun t => t.project_id = pid)) with
      | none => .ok (true, false, { db with snapshots := rest })
      | some best => .ok (true, true, { db with snapshots := reelect db.now pid best rest })
    else .ok (false, false, { db with snapshots := rest })

/-! ## Project summary projection (app/utils/project_summary.py) -/

def save_or_update_module_summary (db : DB) (project_name : Option String)
    (module_name : String) (estimate_total : ℚ) : DB :=
  match project_name with
  | none => db
  | some name =>
    if name = "" then db
    else
      match get_or_create_project db name with
      | .error _ => db
      | .ok (pr, db1) =>
        let pid := pr.id
        let db2 :=
          match db1.summaries.find?
              (fun r => r.project_id = pid ∧ r.module_name = module_name) with
          | some _ =>
            let g : SummaryRow → SummaryRow := fun r =>
              { r with
                estimate_total := estimate_total
                project_name := some name
                updated_at := db1.now }
            let q : SummaryRow → Bool := fun r =>
              decide (r.project_id = pid ∧ r.module_name = module_name)
            { db1 with summaries := updateFirst q g db1.summaries }
          | none =>
            let row : SummaryRow :=
              { project_id := pid, project_name := some name, module_name := module_name,
                estimate_total := estimate_total, updated_at := db1.now }
            { db1 with summaries := db1.summaries ++ [row] }
        let hrs := if module_name = "hrs_estimator" then some estimate_total else none
        let lab := if module_name = "lab" then some estimate_total else none
        let log := if module_name = "logistics" then some estimate_total else none
        update_project_summary db2 pid hrs lab log none

/-! ## HRS estimator: lab-rate sync and DB-level operation -/

/-- `HRS_TO_LAB_MAPPING` from app/routers/hrs_estimator.py:
(key, service_category, test_name, turnaround). -/
def hrsToLabMapping : List (String × String × String × String) :=
  [("asbestos", "PLM - Bulk Building Materials", "EPA/600/R-93/116 (<1%)", "24 hr"),
   ("lead_xrf", "", "", ""),
   ("lead_chips_wipes", "Lead Laboratory Services", "Paint Chips (SW-846-7000B)", "24 hr"),
   ("mold_tape_lift", "Mold Related Services - EMLab P&K", "Direct Microscopic Examination",
     "Standard"),
   ("mold_spore_trap", "Mold Related Services - EMLab P&K", "Spore Trap Analysis", "Standard"),
   ("mold_culturable", "Mold Related Services - EMLab P&K", "Culturable air fungi speciation",
     "Standard")]

def hrsMappingValue (est : HRSEstimation) (key : String) : ℚ :=
  if key = "asbestos" then est.total_plm
  else if key = "lead_xrf" then est.total_xrf_shots
  else if key = "lead_chips_wipes" then est.total_chips_wipes
  else if key = "mold_tape_lift" then est.total_tape_lift
  else if key = "mold_spore_trap" then est.total_spore_trap
  else if key = "mold_culturable" then est.total_culturable
  else 0

def applyHrsLabUpdate (db : DB) (est : HRSEstimation)
    (entry : String × String × String × String) : DB :=
  let v := hrsMappingValue est entry.1
  if v = 0 then db
  else
    match db.service_categories.find? (fun c => c.name = entry.2.1) with
    | none => db
    | some svc =>
      match db.tests.find?
          (fun t => t.name = entry.2.2.1 ∧ t.service_category_id = svc.id) with
      | none => db
      | some test =>
        match db.turn_times.find? (fun tt => tt.label = entry.2.2.2) with
        | none => db
        | some turn =>
          match db.lab_rates.find?
              (fun r => r.test_id = test.id ∧ r.turn_time_id = turn.id) with
          | none => db
          | some _ =>
            let q : RateRow → Bool := fun r =>
              decide (r.test_id = test.id ∧ r.turn_time_id = turn.id)
            let g : RateRow → RateRow := fun r => { r with sample_count := some v }
            { db with lab_rates := updateFirst q g db.lab_rates }

/-- `update_lab_fees_from_hrs` from app/routers/hrs_estimator.py: pushes
nonzero HRS totals into the matching lab `Rate.sample_count` fields. -/
def update_lab_fees_from_hrs (db : DB) (est : HRSEstimation) : DB :=
  hrsToLabMapping.foldl (fun d e => applyHrsLabUpdate d est e) db

/-- The full `POST /estimate` operation of the HRS router: computes the
estimation, persists the header (with its line rows), and syncs lab rates.
It touches neither the snapshots nor the projects nor the summaries. -/
def create_estimate_db (db : DB) (p : HRSEstimationCreate) :
    Except String (HRSEstimation × DB) :=
  match create_estimate (lookupLaborRate db) p with
  | .error e => .error e
  | .ok est =>
    .ok (est, update_lab_fees_from_hrs
      { db with hrs_estimations := db.hrs_estimations ++ [est] } est)

/-! ## Lab fees order engine (app/routers/lab_fees.py) -/

def labRateLookup (db : DB) (test_id turn_time_id : ℕ) : Option ℚ :=
  (db.lab_rates.find?
    (fun r => r.test_id = test_id ∧ r.turn_time_id = turn_time_id)).map (·.price)

/-- The order-details loop of `create_lab_fees_order`: a missing rate is
silently skipped. Returns (total_samples, total_lab_fees_cost). -/
def orderTotals (db : DB) (details : List (ℕ × List (ℕ × ℚ))) : ℚ × ℚ :=
  details.foldl
    (fun acc e =>
      e.2.foldl
        (fun acc2 t =>
          match labRateLookup db e.1 t.1 with
          | none => acc2
          | some price => (acc2.1 + t.2, acc2.2 + price * t.2))
        acc)
    (0, 0)

/-- The staff-assignment loop: fails with HTTP 400 on an unknown role. -/
def processStaff (db : DB)
    (acc : List StaffAssignmentRow × List StaffBreakdownEntry × RoleMap × ℚ) :
    List StaffAssignmentIn →
    Except String (List StaffAssignmentRow × List StaffBreakdownEntry × RoleMap × ℚ)
  | [] => .ok acc
  | a :: rest =>
    match lookupLaborRate db a.role with
    | none => .error ("Invalid role: " ++ a.role)
    | some rate =>
      let totalHours := (a.count : ℚ) * a.hours_per_person
      let totalCost := totalHours * rate
      processStaff db
        (acc.1 ++ [⟨a.role, a.count, a.hours_per_person, totalHours, rate, totalCost⟩],
         acc.2.1 ++ [⟨a.role, a.count, totalHours⟩],
         addTo acc.2.2.1 a.role totalCost,
         acc.2.2.2 + totalCost) rest

/-- The `LabFeesOrder` row built by `create_lab_fees_order` from the
order-details totals and the processed staff assignments. -/
def mkLabOrderRow (db : DB) (order : LabFeesOrderCreate)
    (st : List StaffAssignmentRow × List StaffBreakdownEntry × RoleMap × ℚ) :
    LabFeesOrderRow :=
  { project_name := order.project_name, hrs_estimation_id := order.hrs_estimation_id,
    order_details := order.order_details,
    total_samples := (orderTotals db (order.order_details.getD [])).1,
    total_lab_fees_cost := (orderTotals db (order.order_details.getD [])).2,
    total_staff_labor_cost := st.2.2.2,
    total_cost := (orderTotals db (order.order_details.getD [])).2 + st.2.2.2,
    staff_breakdown := st.2.1, staff_labor_costs := st.2.2.1, staff_assignments := st.1 }

/-- `create_lab_fees_order` from app/routers/lab_fees.py. -/
def create_lab_fees_order (db : DB) (order : LabFeesOrderCreate) :
    Except String (LabFeesOrderRow × DB) :=
  match processStaff db ([], [], [], 0) (order.staff_assignments.getD []) with
  | .error e => .error e
  | .ok st =>
    let row := mkLabOrderRow db order st
    let db1 := { db with lab_orders := db.lab_orders ++ [row] }
    let db2 := save_or_update_module_summary db1 order.project_name "lab" row.total_cost
    match save_module_to_snapshot db2 order.project_name "lab" ""
        (some { total_cost := some row.total_cost, total_logistics_cost := none }) with
    | .error e => .error e
    | .ok r => .ok (row, r.2)

/-! ## Lemma kit: counting active snapshots through list updates -/

theorem countP_updateFirst_congr {α} {p q : α → Bool} {g : α → α}
    (h : ∀ x, p x = true → q (g x) = q x) :
    ∀ l : List α, (updateFirst p g l).countP q = l.countP q := by
  intro l
  induction l with
  | nil => rfl
  | cons x xs ih =>
    by_cases hp : p x = true
    · simp [updateFirst, hp, List.countP_cons, h x hp]
    · simp [updateFirst, hp, List.countP_cons, ih]

theorem countP_updateFirst_kill {α} {p : α → Bool} {g : α → α}
    (h : ∀ x, p x = true → p (g x) = false) :
    ∀ l : List α, (updateFirst p g l).countP p =
      l.countP p - (if l.any p then 1 else 0) := by
  intro l
  induction l with
  | nil => rfl
  | cons x xs ih =>
    by_cases hp : p x = true
    · simp [updateFirst, hp, List.countP_cons, h x hp, List.any_cons]
    · simp [updateFirst, hp, List.countP_cons, ih, List.any_cons]

theorem activePred_eq_true {pid : ℕ} {s : Snap} (h : activePred pid s = true) :
    s.project_id = pid ∧ s.is_active = true := by
  simpa [activePred] using h

theorem activePred_false_of_ne {pid q : ℕ} {s : Snap} (hq : q ≠ pid)
    (hpid : s.project_id = pid) : activePred q s = false := by
  simp [activePred, hpid]
  intro hqq
  exact absurd hqq.symm hq

def activeCount (l : List Snap) (pid : ℕ) : ℕ := l.countP (activePred pid)

/-- The snapshot single-active invariant over a snapshot table. -/
def SingleActiveL (l : List Snap) : Prop := ∀ pid, activeCount l pid ≤ 1

theorem singleActiveL_of_global (l : List Snap)
    (h : l.countP (fun s => s.is_active) ≤ 1) : SingleActiveL l := by
  intro pid
  refine le_trans (List.countP_mono_left ?_) h
  intro s _ hs
  exact (activePred_eq_true hs).2

theorem setModuleData_project_id (m : String) (md : ModuleData) (s : Snap) :
    (setModuleData m md s).project_id = s.project_id := by
  unfold setModuleData
  split_ifs <;> rfl

theorem setModuleData_is_active (m : String) (md : ModuleData) (s : Snap) :
    (setModuleData m md s).is_active = s.is_active := by
  unfold setModuleData
  split_ifs <;> rfl

theorem update_project_summary_snapshots (db : DB) (pid : ℕ) (a b c : Option ℚ)
    (d : Option ℕ) : (update_project_summary db pid a b c d).snapshots = db.snapshots := by
  unfold update_project_summary
  split <;> rfl

theorem get_or_create_project_snapshots {db : DB} {n : String} {pr : Project} {db1 : DB}
    (h : get_or_create_project db n = .ok (pr, db1)) : db1.snapshots = db.snapshots := by
  unfold get_or_create_project at h
  split at h
  · exact absurd h (by simp)
  · split at h
    · cases h
      rfl
    · cases h
      rfl

theorem activePred_deactivated (q : ℕ) (t : Snap) :
    activePred q { t with is_active := false } = false := by
  simp [activePred]

theorem countP_deactMap_self (pid : ℕ) (l : List Snap) :
    (l.map (fun t => if activePred pid t then { t with is_active := false } else t)).countP
      (activePred pid) = 0 := by
  rw [List.countP_map]
  apply List.countP_eq_zero.mpr
  intro t _
  simp only [Function.comp]
  by_cases h : activePred pid t = true
  · rw [if_pos h, activePred_deactivated]
    simp
  · rw [if_neg h]
    exact h

theorem countP_deactMap_other {pid q : ℕ} (hq : q ≠ pid) (l : List Snap) :
    (l.map (fun t => if activePred pid t then { t with is_active := false } else t)).countP
      (activePred q) = l.countP (activePred q) := by
  rw [List.countP_map]
  apply List.countP_congr
  intro t _
  simp only [Function.comp]
  by_cases h : activePred pid t = true
  · rw [if_pos h, activePred_deactivated,
      activePred_false_of_ne hq (activePred_eq_true h).1]
  · rw [if_neg h]

theorem activePred_false_of_proj_ne {pid : ℕ} {s : Snap} (h : ¬s.project_id = pid) :
    activePred pid s = false := by
  simp [activePred, h]

theorem setActiveFlag_project_id (now : ℕ) (b : Bool) (s : Snap) :
    (setActiveFlag now b s).project_id = s.project_id := by
  unfold setActiveFlag
  split <;> rfl

theorem setActiveFlag_is_active (now : ℕ) (b : Bool) (s : Snap) :
    (setActiveFlag now b s).is_active = b := by
  unfold setActiveFlag
  split
  · next h => exact h
  · rfl

theorem countP_deactivateAllFor_self (now pid : ℕ) (l : List Snap) :
    (deactivateAllFor now pid l).countP (activePred pid) = 0 := by
  induction l with
  | nil => rfl
  | cons s rest ih =>
    simp only [deactivateAllFor, List.countP_cons, ih]
    by_cases h : s.project_id = pid
    · rw [if_pos h]
      simp [activePred, setActiveFlag_is_active]
    · rw [if_neg h]
      simp [activePred_false_of_proj_ne h]

theorem countP_deactivateAllFor_other {pid q : ℕ} (hq : q ≠ pid) (now : ℕ) (l : List Snap) :
    (deactivateAllFor now pid l).countP (activePred q) = l.countP (activePred q) := by
  induction l with
  | nil => rfl
  | cons s rest ih =>
    simp only [deactivateAllFor, List.countP_cons, ih]
    by_cases h : s.project_id = pid
    · rw [if_pos h]
      have h1 : ¬(setActiveFlag now false s).project_id = q := by
        rw [setActiveFlag_project_id, h]
        exact fun hc => hq hc.symm
      have h2 : ¬s.project_id = q := by
        rw [h]
        exact fun hc => hq hc.symm
      rw [activePred_false_of_proj_ne h1, activePred_false_of_proj_ne h2]
    · rw [if_neg h]

theorem deactivateAllFor_inactive {now pid : ℕ} {l : List Snap} {x : Snap}
    (hx : x ∈ deactivateAllFor now pid l) (hpid : x.project_id = pid) :
    x.is_active = false := by
  induction l with
  | nil => simp [deactivateAllFor] at hx
  | cons s rest ih =>
    simp only [deactivateAllFor, List.mem_cons] at hx
    rcases hx with hx | hx
    · by_cases h : s.project_id = pid
      · rw [hx, if_pos h, setActiveFlag_is_active]
      · rw [hx, if_neg h] at hpid ⊢
        exact absurd hpid h
    · exact ih hx

theorem deactivateAllFor_mem {now pid : ℕ} {l : List Snap} {x : Snap}
    (hx : x ∈ deactivateAllFor now pid l) :
    ∃ t ∈ l, x = (if t.project_id = pid then setActiveFlag now false t else t) := by
  induction l with
  | nil => simp [deactivateAllFor] at hx
  | cons s rest ih =>
    simp only [deactivateAllFor, List.mem_cons] at hx
    rcases hx with hx | hx
    · exact ⟨s, List.mem_cons_self s rest, hx⟩
    · obtain ⟨t, ht, he⟩ := ih hx
      exact ⟨t, List.mem_cons_of_mem s ht, he⟩

theorem countP_reelect_self_le (now pid best : ℕ) (l : List Snap) :
    (reelect now pid best l).countP (activePred pid) ≤ 1 := by
  induction l with
  | nil => simp [reelect]
  | cons s rest ih =>
    simp only [reelect]
    by_cases h : s.project_id = pid
    · rw [if_pos h]
      by_cases hb : s.updated_at = best
      · rw [if_pos hb]
        simp [List.countP_cons, countP_deactivateAllFor_self]
        split <;> simp
      · rw [if_neg hb]
        have hhead : activePred pid (setActiveFlag now false s) = false := by
          simp [activePred, setActiveFlag_is_active]
        simp [List.countP_cons, hhead]
        exact ih
    · rw [if_neg h]
      simp [List.countP_cons, activePred_false_of_proj_ne h]
      exact ih

theorem countP_reelect_other {pid q : ℕ} (hq : q ≠ pid) (now best : ℕ) (l : List Snap) :
    (reelect now pid best l).countP (activePred q) = l.countP (activePred q) := by
  induction l with
  | nil => rfl
  | cons s rest ih =>
    simp only [reelect]
    by_cases h : s.project_id = pid
    · have h2 : ¬s.project_id = q := by
        rw [h]
        exact fun hc => hq hc.symm
      by_cases hb : s.updated_at = best
      · rw [if_pos h, if_pos hb]
        have h1 : ¬(setActiveFlag now true s).project_id = q := by
          rw [setActiveFlag_project_id]
          exact h2
        simp only [List.countP_cons, activePred_false_of_proj_ne h1,
          activePred_false_of_proj_ne h2, countP_deactivateAllFor_other hq]
      · rw [if_pos h, if_neg hb]
        have h1 : ¬(setActiveFlag now false s).project_id = q := by
          rw [setActiveFlag_project_id]
          exact h2
        simp only [List.countP_cons, activePred_false_of_proj_ne h1,
          activePred_false_of_proj_ne h2, ih]
    · rw [if_neg h]
      simp only [List.countP_cons, ih]

theorem countP_reelect_self_eq_one {now pid best : ℕ} {l : List Snap}
    (h : ∃ t ∈ l, t.project_id = pid ∧ t.updated_at = best) :
    (reelect now pid best l).countP (activePred pid) = 1 := by
  induction l with
  | nil => simp at h
  | cons s rest ih =>
    simp only [reelect]
    by_cases hp : s.project_id = pid
    · by_cases hb : s.updated_at = best
      · rw [if_pos hp, if_pos hb]
        have hhead : activePred pid (setActiveFlag now true s) = true := by
          simp [activePred, setActiveFlag_is_active, setActiveFlag_project_id, hp]
        simp [List.countP_cons, countP_deactivateAllFor_self, hhead]
      · rw [if_pos hp, if_neg hb]
        have hhead : activePred pid (setActiveFlag now false s) = false := by
          simp [activePred, setActiveFlag_is_active]
        simp only [List.countP_cons, hhead, if_false]
        obtain ⟨t, ht, h1, h2⟩ := h
        rcases List.mem_cons.mp ht with rfl | ht'
        · exact absurd h2 hb
        · simpa using ih ⟨t, ht', h1, h2⟩
    · rw [if_neg hp]
      simp only [List.countP_cons, activePred_false_of_proj_ne hp]
      obtain ⟨t, ht, h1, h2⟩ := h
      rcases List.mem_cons.mp ht with rfl | ht'
      · exact absurd h1 hp
      · simpa using ih ⟨t, ht', h1, h2⟩

theorem reelect_active_mem {now pid best : ℕ} {l : List Snap} {x : Snap}
    (hx : x ∈ reelect now pid best l) (hpid : x.project_id = pid)
    (hact : x.is_active = true) :
    ∃ t ∈ l, t.project_id = pid ∧ t.updated_at = best ∧ x = setActiveFlag now true t := by
  induction l with
  | nil => simp [reelect] at hx
  | cons s rest ih =>
    simp only [reelect] at hx
    by_cases hp : s.project_id = pid
    · by_cases hb : s.updated_at = best
      · rw [if_pos hp, if_pos hb] at hx
        rcases List.mem_cons.mp hx with hx | hx
        · exact ⟨s, List.mem_cons_self s rest, hp, hb, hx⟩
        · exact absurd (deactivateAllFor_inactive hx hpid) (by rw [hact]; simp)
      · rw [if_pos hp, if_neg hb] at hx
        rcases List.mem_cons.mp hx with hx | hx
        · rw [hx, setActiveFlag_is_active] at hact
          exact absurd hact (by simp)
        · obtain ⟨t, ht, ha, hc, hd⟩ := ih hx
          exact ⟨t, List.mem_cons_of_mem s ht, ha, hc, hd⟩
    · rw [if_neg hp] at hx
      rcases List.mem_cons.mp hx with hx | hx
      · rw [hx] at hpid
        exact absurd hpid hp
      · obtain ⟨t, ht, ha, hc, hd⟩ := ih hx
        exact ⟨t, List.mem_cons_of_mem s ht, ha, hc, hd⟩

theorem maxUpdated_cons_ne_none (s : Snap) (l : List Snap) :
    maxUpdated (s :: l) ≠ none := by
  simp only [maxUpdated]
  cases maxUpdated l <;> simp

theorem maxUpdated_le {l : List Snap} {b : ℕ} (h : maxUpdated l = some b) :
    ∀ t ∈ l, t.updated_at ≤ b := by
  induction l generalizing b with
  | nil => simp [maxUpdated] at h
  | cons s rest ih =>
    intro t ht
    simp only [maxUpdated] at h
    cases hr : maxUpdated rest with
    | none =>
      rw [hr] at h
      simp at h
      rcases List.mem_cons.mp ht with rfl | ht'
      · omega
      · cases rest with
        | nil => simp at ht'
        | cons a b2 => exact absurd hr (maxUpdated_cons_ne_none a b2)
    | some m =>
      rw [hr] at h
      simp at h
      rcases List.mem_cons.mp ht with rfl | ht'
      · omega
      · have := ih hr t ht'
        omega

theorem maxUpdated_mem {l : List Snap} {b : ℕ} (h : maxUpdated l = some b) :
    ∃ t ∈ l, t.updated_at = b := by
  induction l generalizing b with
  | nil => simp [maxUpdated] at h
  | cons s rest ih =>
    simp only [maxUpdated] at h
    cases hr : maxUpdated rest with
    | none =>
      rw [hr] at h
      simp at h
      refine ⟨s, List.mem_cons_self s rest, ?_⟩
      omega
    | some m =>
      rw [hr] at h
      simp at h
      by_cases hm : s.updated_at ≤ m
      · obtain ⟨t, ht, he⟩ := ih hr
        refine ⟨t, List.mem_cons_of_mem s ht, ?_⟩
        omega
      · refine ⟨s, List.mem_cons_self s rest, ?_⟩
        omega

/-- Effect of `save_module_to_snapshot` on the snapshot table: it is
unchanged, or the active snapshot of one project is updated in place
(`is_active` and `project_id` untouched), or all active snapshots of one
project are deactivated and a fresh active one is appended. -/
theorem save_module_snapshots_cases {db : DB} {pn : Option String} {mn ins : String}
    {outs : Option OutputsBlob} {r : Option ℕ} {db' : DB}
    (hop : save_module_to_snapshot db pn mn ins outs = .ok (r, db')) :
    db'.snapshots = db.snapshots ∨
    (∃ pid g, (∀ t : Snap, (g t).project_id = t.project_id ∧ (g t).is_active = t.is_active) ∧
      db'.snapshots = updateFirst (activePred pid) g db.snapshots) ∨
    (∃ pid snap, snap.project_id = pid ∧ snap.is_active = true ∧
      db'.snapshots =
        (db.snapshots.map fun t => if activePred pid t then { t with is_active := false } else t)
          ++ [snap]) := by
  unfold save_module_to_snapshot at hop
  cases pn with
  | none =>
    simp only [Except.ok.injEq, Prod.mk.injEq] at hop
    left
    rw [← hop.2]
  | some name =>
    dsimp only at hop
    by_cases hn : name = ""
    · rw [if_pos hn] at hop
      simp only [Except.ok.injEq, Prod.mk.injEq] at hop
      left
      rw [← hop.2]
    · rw [if_neg hn] at hop
      cases hget : get_or_create_project db name with
      | error e =>
        rw [hget] at hop
        exact absurd hop (by simp)
      | ok pr1 =>
        obtain ⟨pr, db1⟩ := pr1
        rw [hget] at hop
        have hsnap : db1.snapshots = db.snapshots := get_or_create_project_snapshots hget
        dsimp only at hop
        cases hfind : db1.snapshots.find? (activePred pr.id) with
        | some s =>
          rw [hfind] at hop
          dsimp only at hop
          simp only [Except.ok.injEq, Prod.mk.injEq] at hop
          right
          left
          refine ⟨pr.id,
            (fun t => { setModuleData mn ⟨ins, outs⟩ t with
              project_name := some name, updated_at := db1.now }), ?_, ?_⟩
          · intro t
            constructor
            · exact setModuleData_project_id mn ⟨ins, outs⟩ t
            · exact setModuleData_is_active mn ⟨ins, outs⟩ t
          · rw [← hop.2, update_project_summary_snapshots]
            dsimp only
            rw [hsnap]
        | none =>
          rw [hfind] at hop
          dsimp only at hop
          simp only [Except.ok.injEq, Prod.mk.injEq] at hop
          right
          right
          refine ⟨pr.id,
            { id := db1.next_snapshot_id, project_id := pr.id, project_name := some name,
              snapshot_name := none, is_active := true,
              hrs_estimator_data := if mn = "hrs_estimator" then some ⟨ins, outs⟩ else none,
              lab_fees_data := if mn = "lab" then some ⟨ins, outs⟩ else none,
              logistics_data := if mn = "logistics" then some ⟨ins, outs⟩ else none,
              created_at := db1.now, updated_at := db1.now }, rfl, rfl, ?_⟩
          rw [← hop.2, update_project_summary_snapshots]
          dsimp only
          rw [hsnap]

theorem get_or_create_project_now {db : DB} {n : String} {pr : Project} {db1 : DB}
    (h : get_or_create_project db n = .ok (pr, db1)) : db1.now = db.now := by
  unfold get_or_create_project at h
  split at h
  · exact absurd h (by simp)
  · split at h
    · cases h
      rfl
    · cases h
      rfl

/-- Effect of `create_new_snapshot_from_active` on the snapshot table. -/
theorem create_new_snapshot_cases {db : DB} {name : String} {sn : Option String}
    {i : ℕ} {db' : DB}
    (hop : create_new_snapshot_from_active db name sn = .ok (i, db')) :
    ∃ pid snap, (snap : Snap).project_id = pid ∧ snap.is_active = true ∧
      ((db.snapshots.find? (activePred pid) = none ∧
          db'.snapshots = db.snapshots ++ [snap]) ∨
       ((db.snapshots.find? (activePred pid)).isSome = true ∧
          db'.snapshots = updateFirst (activePred pid)
            (fun t => { t with is_active := false, updated_at := db.now }) db.snapshots
            ++ [snap])) := by
  unfold create_new_snapshot_from_active at hop
  cases hget : get_or_create_project db name with
  | error e =>
    rw [hget] at hop
    exact absurd hop (by simp)
  | ok pr1 =>
    obtain ⟨pr, db1⟩ := pr1
    rw [hget] at hop
    have hsnap := get_or_create_project_snapshots hget
    have hnow := get_or_create_project_now hget
    dsimp only at hop
    rw [hsnap, hnow] at hop
    cases hfind : db.snapshots.find? (activePred pr.id) with
    | none =>
      rw [hfind] at hop
      dsimp only at hop
      simp only [Except.ok.injEq, Prod.mk.injEq] at hop
      refine ⟨pr.id,
        { id := db1.next_snapshot_id, project_id := pr.id, project_name := some name,
          snapshot_name := sn, is_active := true, hrs_estimator_data := none,
          lab_fees_data := none, logistics_data := none,
          created_at := db.now, updated_at := db.now },
        rfl, rfl, Or.inl ⟨hfind, ?_⟩⟩
      rw [← hop.2]
    | some a =>
      rw [hfind] at hop
      dsimp only at hop
      simp only [Except.ok.injEq, Prod.mk.injEq] at hop
      refine ⟨pr.id,
        { id := db1.next_snapshot_id, project_id := pr.id, project_name := some name,
          snapshot_name := sn, is_active := true,
          hrs_estimator_data := a.hrs_estimator_data, lab_fees_data := a.lab_fees_data,
          logistics_data := a.logistics_data, created_at := db.now, updated_at := db.now },
        rfl, rfl, Or.inr ⟨by rw [hfind]; rfl, ?_⟩⟩
      rw [← hop.2]

/-- C1: Single-active snapshot invariant — for every project, each of the
mutating snapshot operations (`save_module_to_snapshot`,
`create_new_snapshot_from_active`, `delete_snapshot`) preserves the property
that at most one `EstimateSnapshot` row per project has `is_active = true`,
assuming it held before the operation. -/
theorem single_active_invariant (db : DB) (h : SingleActiveL db.snapshots) :
    (∀ pn mn ins outs r db',
        save_module_to_snapshot db pn mn ins outs = .ok (r, db') →
        SingleActiveL db'.snapshots) ∧
    (∀ name sn i db',
        create_new_snapshot_from_active db name sn = .ok (i, db') →
        SingleActiveL db'.snapshots) ∧
    (∀ sid w n db',
        delete_snapshot db sid = .ok (w, n, db') →
        SingleActiveL db'.snapshots) := by
  refine ⟨?_, ?_, ?_⟩
  · intro pn mn ins outs r db' hop
    rcases save_module_snapshots_cases hop with hc | ⟨pid, g, hg, hc⟩ | ⟨pid, snap, hproj, hact, hc⟩
    · rw [hc]
      exact h
    · intro q
      unfold activeCount
      rw [hc, countP_updateFirst_congr]
      · exact h q
      · intro x _
        simp [activePred, (hg x).1, (hg x).2]
    · intro q
      unfold activeCount
      rw [hc, List.countP_append]
      by_cases hq : q = pid
      · subst hq
        rw [countP_deactMap_self]
        simp [activePred, hproj, hact]
      · rw [countP_deactMap_other hq]
        have : activePred q snap = false :=
          activePred_false_of_proj_ne (by rw [hproj]; exact fun hc2 => hq hc2.symm)
        simp only [List.countP_cons, List.countP_nil, this]
        simpa using h q
  · intro name sn i db' hop
    rcases create_new_snapshot_cases hop with ⟨pid, snap, hproj, hact, hc⟩
    rcases hc with ⟨hfind, hc⟩ | ⟨hfind, hc⟩
    · intro q
      unfold activeCount
      rw [hc, List.countP_append]
      by_cases hq : q = pid
      · subst hq
        have h0 : db.snapshots.countP (activePred q) = 0 := by
          apply List.countP_eq_zero.mpr
          intro a ha
          exact List.find?_eq_none.mp hfind a ha
        rw [h0]
        simp [activePred, hproj, hact]
      · have : activePred q snap = false :=
          activePred_false_of_proj_ne (by rw [hproj]; exact fun hc2 => hq hc2.symm)
        simp only [List.countP_cons, List.countP_nil, this]
        simpa using h q
    · intro q
      unfold activeCount
      rw [hc, List.countP_append]
      by_cases hq : q = pid
      · subst hq
        have hany : db.snapshots.any (activePred q) = true := by
          rw [List.any_eq_true]
          obtain ⟨a, hfa⟩ := Option.isSome_iff_exists.mp hfind
          exact ⟨a, List.mem_of_find?_eq_some hfa, List.find?_some hfa⟩
        have hkill := countP_updateFirst_kill
          (p := activePred q)
          (g := fun t => { t with is_active := false, updated_at := db.now })
          (by intro x _; simp [activePred]) db.snapshots
        rw [hany] at hkill
        simp only [if_true] at hkill
        rw [hkill]
        have hsq : activePred q snap = true := by
          simp [activePred, hproj, hact]
        have hle := h q
        unfold activeCount at hle
        simp [List.countP_cons, hsq]
        omega
      · rw [countP_updateFirst_congr]
        · have : activePred q snap = false :=
            activePred_false_of_proj_ne (by rw [hproj]; exact fun hc2 => hq hc2.symm)
          simp only [List.countP_cons, List.countP_nil, this]
          simpa using h q
        · intro x hx
          have hxp := (activePred_eq_true hx).1
          have h1 : activePred q ({ x with is_active := false, updated_at := db.now } : Snap)
              = false := by
            simp [activePred]
          rw [h1, activePred_false_of_ne (fun he => hq he) hxp]
  · intro sid w n db' hop
    unfold delete_snapshot at hop
    cases hfind : db.snapshots.find? (fun s => s.id = sid) with
    | none =>
      rw [hfind] at hop
      exact absurd hop (by simp)
    | some s =>
      rw [hfind] at hop
      dsimp only at hop
      have hsub : (db.snapshots.eraseP (fun t => decide (t.id = sid))).Sublist db.snapshots :=
        List.eraseP_sublist db.snapshots
      by_cases hact : s.is_active = true
      · rw [if_pos hact] at hop
        cases hmax : maxUpdated ((db.snapshots.eraseP (fun t => decide (t.id = sid))).filter
            (fun t => t.project_id = s.project_id)) with
        | none =>
          rw [hmax] at hop
          simp only [Except.ok.injEq, Prod.mk.injEq] at hop
          intro q
          rw [← hop.2.2]
          exact le_trans (hsub.countP_le (activePred q)) (h q)
        | some best =>
          rw [hmax] at hop
          simp only [Except.ok.injEq, Prod.mk.injEq] at hop
          intro q
          rw [← hop.2.2]
          by_cases hq : q = s.project_id
          · subst hq
            exact countP_reelect_self_le db.now s.project_id best _
          · unfold activeCount
            rw [countP_reelect_other hq]
            exact le_trans (hsub.countP_le (activePred q)) (h q)
      · rw [if_neg hact] at hop
        simp only [Except.ok.injEq, Prod.mk.injEq] at hop
        intro q
        rw [← hop.2.2]
        exact le_trans (hsub.countP_le (activePred q)) (h q)

theorem maxUpdated_eq_none {l : List Snap} (h : maxUpdated l = none) : l = [] := by
  cases l with
  | nil => rfl
  | cons s rest => exact absurd h (maxUpdated_cons_ne_none s rest)

/-- C5: Snapshot re-election on delete.  Deleting the active snapshot of a
project re-elects, among the remaining snapshots of that project, one with
the maximal `updated_at` (and exactly one remains active); if the project
has no remaining snapshots it has no active snapshot; deleting an inactive
snapshot only removes that row, changing no other snapshot. -/
theorem snapshot_reelection_on_delete (db : DB) (sid : ℕ) (s : Snap)
    (hfind : db.snapshots.find? (fun t => t.id = sid) = some s) :
    (s.is_active = true →
      ∀ best,
        maxUpdated ((db.snapshots.eraseP (fun t => decide (t.id = sid))).filter
          (fun t => t.project_id = s.project_id)) = some best →
      ∃ db', delete_snapshot db sid = .ok (true, true, db') ∧
        activeCount db'.snapshots s.project_id = 1 ∧
        (∀ x ∈ db'.snapshots, x.project_id = s.project_id → x.is_active = true →
          ∃ t ∈ (db.snapshots.eraseP (fun u => decide (u.id = sid))).filter
              (fun u => u.project_id = s.project_id),
            x = setActiveFlag db.now true t ∧
            ∀ u ∈ (db.snapshots.eraseP (fun v => decide (v.id = sid))).filter
                (fun v => v.project_id = s.project_id),
              u.updated_at ≤ t.updated_at)) ∧
    (s.is_active = true →
      maxUpdated ((db.snapshots.eraseP (fun t => decide (t.id = sid))).filter
        (fun t => t.project_id = s.project_id)) = none →
      delete_snapshot db sid =
        .ok (true, false,
          { db with snapshots := db.snapshots.eraseP (fun t => decide (t.id = sid)) }) ∧
      activeCount (db.snapshots.eraseP (fun t => decide (t.id = sid))) s.project_id = 0) ∧
    (s.is_active = false →
      delete_snapshot db sid =
        .ok (false, false,
          { db with snapshots := db.snapshots.eraseP (fun t => decide (t.id = sid)) })) := by
  refine ⟨?_, ?_, ?_⟩
  · intro hact best hbest
    refine ⟨{ db with snapshots := reelect db.now s.project_id best (db.snapshots.eraseP (fun t => decide (t.id = sid))) }, ?_, ?_, ?_⟩
    · unfold delete_snapshot
      rw [hfind]
      dsimp only
      rw [if_pos hact, hbest]
    · apply countP_reelect_self_eq_one
      obtain ⟨t, ht, hup⟩ := maxUpdated_mem hbest
      have := List.mem_filter.mp ht
      exact ⟨t, this.1, by simpa using this.2, hup⟩
    · intro x hx hxp hxa
      obtain ⟨t, ht, htp, htu, hxe⟩ := reelect_active_mem hx hxp hxa
      have htf : t ∈ (db.snapshots.eraseP (fun u => decide (u.id = sid))).filter
          (fun u => u.project_id = s.project_id) :=
        List.mem_filter.mpr ⟨ht, by simpa using htp⟩
      refine ⟨t, htf, hxe, ?_⟩
      intro u hu
      rw [htu]
      exact maxUpdated_le hbest u hu
  · intro hact hnone
    have hnil := maxUpdated_eq_none hnone
    constructor
    · unfold delete_snapshot
      rw [hfind]
      dsimp only
      rw [if_pos hact, hnone]
    · apply List.countP_eq_zero.mpr
      intro a ha hp
      have hap := (activePred_eq_true hp).1
      have : a ∈ (db.snapshots.eraseP (fun t => decide (t.id = sid))).filter
          (fun t => t.project_id = s.project_id) :=
        List.mem_filter.mpr ⟨ha, by simpa using hap⟩
      rw [hnil] at this
      simp at this
  · intro hinact
    unfold delete_snapshot
    rw [hfind]
    dsimp only
    rw [if_neg (by rw [hinact]; simp)]

/-! ## Concrete example state used by witnesses and counterexamples -/

def exSnapA : Snap :=
  { id := 1, project_id := 1, project_name := some "Plant A", snapshot_name := none,
    is_active := true, hrs_estimator_data := none, lab_fees_data := none,
    logistics_data := none, created_at := 0, updated_at := 1 }

def exSnapB : Snap := { exSnapA with id := 2, is_active := false, updated_at := 2 }

def exProject : Project :=
  { id := 1, name := "Plant A", description := none, address := none,
    hrs_estimator_total := none, lab_fees_total := none, logistics_total := none,
    grand_total := none, latest_estimate_date := none, latest_snapshot_id := none,
    status := some "active", created_at := 0, updated_at := 0 }

def exDB : DB :=
  { projects := [exProject], snapshots := [exSnapA, exSnapB], summaries := [],
    labor_rates := [], service_categories := [], tests := [], turn_times := [],
    lab_rates := [], hrs_estimations := [], lab_orders := [],
    next_project_id := 2, next_snapshot_id := 3, now := 50 }

def exDBdel : DB :=
  match delete_snapshot exDB 1 with
  | .ok r => r.2.2
  | .error _ => exDB

theorem single_active_invariant_witness :
    SingleActiveL exDB.snapshots ∧ SingleActiveL exDBdel.snapshots :=
  ⟨singleActiveL_of_global _ (by decide),
   (single_active_invariant exDB (singleActiveL_of_global _ (by decide))).2.2 1 true true
     exDBdel (by rfl)⟩

theorem snapshot_reelection_witness :
    exDB.snapshots.find? (fun t => t.id = 1) = some exSnapA ∧
    exSnapA.is_active = true ∧
    maxUpdated ((exDB.snapshots.eraseP (fun t => decide (t.id = 1))).filter
      (fun t => t.project_id = exSnapA.project_id)) = some 2 ∧
    (∃ db', delete_snapshot exDB 1 = .ok (true, true, db') ∧
      activeCount db'.snapshots exSnapA.project_id = 1 ∧
      (∀ x ∈ db'.snapshots, x.project_id = exSnapA.project_id → x.is_active = true →
        ∃ t ∈ (exDB.snapshots.eraseP (fun u => decide (u.id = 1))).filter
            (fun u => u.project_id = exSnapA.project_id),
          x = setActiveFlag exDB.now true t ∧
          ∀ u ∈ (exDB.snapshots.eraseP (fun v => decide (v.id = 1))).filter
              (fun v => v.project_id = exSnapA.project_id),
            u.updated_at ≤ t.updated_at)) :=
  ⟨rfl, rfl, by decide,
   (snapshot_reelection_on_delete exDB 1 exSnapA rfl).1 rfl 2 (by decide)⟩

/-! ## HRS estimator claims -/

def exHrsRates : String → Option ℚ := fun _ => none

/-- An HRS request with 20 bulk samples (5 field hours), five field staff,
no efficiency override, no selected role and no manual hours. -/
def exHrsP : HRSEstimationCreate :=
  { project_name := some "Plant A", override_minutes_asbestos := none,
    override_minutes_xrf := none, override_minutes_lead := none,
    override_minutes_mold := none, field_staff_count := 5, efficiency_factor := none,
    asbestos_lines := [{ component_name := "Pipe", unit_label := "LF", actuals := 10, bulks_per_unit := 2 }],
    lead_lines := [], mold_lines := [], orm := none,
    selected_role := none, manual_labor_hours := none }

def exHrsDummy : HRSEstimation :=
  { project_name := none, field_staff_count := 1, efficiency_factor := 1, total_plm := 0,
    total_xrf_shots := 0, total_chips_wipes := 0, total_tape_lift := 0, total_spore_trap := 0,
    total_culturable := 0, orm_hours := 0, suggested_hours_base := 0,
    suggested_hours_final := 0, selected_role := none, calculated_cost := none,
    manual_labor_costs := [], total_cost := 0, asbestos_lines := [], lead_lines := [],
    mold_lines := [], orm_record := none }

def exHrsEst : HRSEstimation :=
  match create_estimate exHrsRates exHrsP with
  | .ok e => e
  | .error _ => exHrsDummy

/-- C9: Efficiency-factor table — `derive_efficiency_factor` returns 1.0 for
one staff member, 0.7 for two and 0.6 for three or more, and when the request
does not supply `efficiency_factor` the created estimate carries the value
derived from `field_staff_count`. -/
theorem efficiency_factor_table :
    derive_efficiency_factor 1 = 1 ∧
    derive_efficiency_factor 2 = 7/10 ∧
    (∀ n : ℤ, 3 ≤ n → derive_efficiency_factor n = 3/5) ∧
    (∀ rates p est, p.efficiency_factor = none →
      create_estimate rates p = .ok est →
      est.efficiency_factor = derive_efficiency_factor p.field_staff_count) := by
  refine ⟨by norm_num [derive_efficiency_factor], by norm_num [derive_efficiency_factor],
    ?_, ?_⟩
  · intro n hn
    unfold derive_efficiency_factor
    rw [if_neg (by omega), if_neg (by omega)]
  · intro rates p est hp hok
    unfold create_estimate at hok
    rw [hp] at hok
    dsimp only at hok
    cases hsel : p.selected_role with
    | none =>
      rw [hsel] at hok
      dsimp only at hok
      simp only [Except.ok.injEq] at hok
      rw [← hok]
    | some role =>
      rw [hsel] at hok
      dsimp only at hok
      by_cases hre : role = ""
      · rw [if_pos hre] at hok
        simp only [Except.ok.injEq] at hok
        rw [← hok]
      · rw [if_neg hre] at hok
        cases hr : rates role with
        | none =>
          rw [hr] at hok
          exact absurd hok (by simp)
        | some rate =>
          rw [hr] at hok
          simp only [Except.ok.injEq] at hok
          rw [← hok]

theorem efficiency_factor_witness :
    (3 : ℤ) ≤ 5 ∧ derive_efficiency_factor 5 = 3/5 ∧
    exHrsP.efficiency_factor = none ∧
    create_estimate exHrsRates exHrsP = .ok exHrsEst ∧
    exHrsEst.efficiency_factor = derive_efficiency_factor exHrsP.field_staff_count :=
  ⟨by norm_num, efficiency_factor_table.2.2.1 5 (by norm_num), rfl, rfl,
   efficiency_factor_table.2.2.2 exHrsRates exHrsP exHrsEst rfl rfl⟩

/-- C3 counterexample: an HRS request whose computed suggested hours are
positive and which supplies neither a staff list nor `selected_role` (the
payload has no staff field at all) succeeds instead of failing with a
validation error. -/
theorem hrs_missing_staff_counterexample :
    exHrsP.selected_role = none ∧ exHrsP.manual_labor_hours = none ∧
    create_estimate exHrsRates exHrsP = .ok exHrsEst ∧
    exHrsEst.suggested_hours_final > 0 := by
  refine ⟨rfl, rfl, rfl, ?_⟩
  have hv : exHrsEst.suggested_hours_final = 3 := by
    simp only [exHrsEst, exHrsRates, exHrsP, create_estimate]
    norm_num [round2, round_eq, derive_efficiency_factor]
  rw [hv]
  norm_num

/-- C3 (amended): `create_estimate` raises a validation error exactly when
`selected_role` is supplied, truthy (non-empty), and has no `LaborRate` row
(`if selected_role:` is Python truthiness); a request with a falsy
`selected_role` (`None` or the empty string) succeeds, with a null
`calculated_cost` — even when its computed hours are positive (no staff
list exists in the HRS payload and no hours>0 staffing check exists). -/
theorem hrs_validation_behaviour (rates : String → Option ℚ) (p : HRSEstimationCreate) :
    ((∃ e, create_estimate rates p = .error e) ↔
      ∃ role, p.selected_role = some role ∧ role ≠ "" ∧ rates role = none) ∧
    (∀ est, create_estimate rates p = .ok est →
      (p.selected_role = none ∨ p.selected_role = some "") →
      est.calculated_cost = none) := by
  constructor
  · unfold create_estimate
    dsimp only
    cases hsel : p.selected_role with
    | none =>
      simp only [hsel]
      constructor
      · rintro ⟨e, he⟩
        exact absurd he (by simp)
      · rintro ⟨role, hr, _, _⟩
        exact absurd hr (by simp)
    | some role =>
      by_cases hre : role = ""
      · subst hre
        simp only [hsel]
        constructor
        · rintro ⟨e, he⟩
          exact absurd he (by simp)
        · rintro ⟨role2, hr2, hne, _⟩
          rw [Option.some.injEq] at hr2
          exact absurd hr2.symm hne
      · cases hr : rates role with
        | none =>
          simp only [hsel, hr]
          exact ⟨fun _ => ⟨role, rfl, hre, hr⟩, fun _ => ⟨_, by rw [if_neg hre]⟩⟩
        | some rate =>
          simp only [hsel, hr]
          constructor
          · rintro ⟨e, he⟩
            rw [if_neg hre] at he
            exact absurd he (by simp)
          · rintro ⟨role2, hr2, _, hnone⟩
            rw [Option.some.injEq] at hr2
            rw [← hr2] at hnone
            rw [hr] at hnone
            exact absurd hnone (by simp)
  · intro est hok hsel
    unfold create_estimate at hok
    rcases hsel with hsel | hsel
    · rw [hsel] at hok
      dsimp only at hok
      simp only [Except.ok.injEq] at hok
      rw [← hok]
    · rw [hsel] at hok
      dsimp only at hok
      rw [if_pos rfl] at hok
      simp only [Except.ok.injEq] at hok
      rw [← hok]

theorem hrs_validation_witness :
    exHrsP.selected_role = none ∧ exHrsEst.calculated_cost = none :=
  ⟨rfl, (hrs_validation_behaviour exHrsRates exHrsP).2 exHrsEst rfl (Or.inl rfl)⟩

/-! ## Project summary claims -/

theorem find?_updateFirst {α} {p : α → Bool} {g : α → α}
    (hg : ∀ x, p x = true → p (g x) = true) :
    ∀ l : List α, (updateFirst p g l).find? p = (l.find? p).map g := by
  intro l
  induction l with
  | nil => rfl
  | cons x xs ih =>
    by_cases hp : p x = true
    · rw [updateFirst, if_pos hp, List.find?_cons_of_pos _ (hg x hp),
        List.find?_cons_of_pos _ hp]
      rfl
    · rw [updateFirst, if_neg hp,
        List.find?_cons_of_neg _ (by simpa using hp),
        List.find?_cons_of_neg _ (by simpa using hp), ih]

/-- Python's `new if new is not None else old` overwrite of a total field. -/
def overwrite (new old : Option ℚ) : Option ℚ :=
  match new with
  | some x => some x
  | none => old

/-- C4 counterexample: with all three module totals present and equal to 0,
`update_project_summary` sets `grand_total` to None, not to their sum 0. -/
theorem update_project_summary_counterexample :
    ∃ p', (update_project_summary exDB 1 (some 0) (some 0) (some 0) none).projects.find?
        (fun q => q.id = 1) = some p' ∧
      p'.hrs_estimator_total = some 0 ∧ p'.lab_fees_total = some 0 ∧
      p'.logistics_total = some 0 ∧ p'.grand_total = none := by
  refine ⟨_, rfl, rfl, rfl, rfl, ?_⟩
  simp [update_project_summary, exDB, exProject, updateFirst]

/-- C4 (amended): `update_project_summary` overwrites the non-null total
arguments, recomputes `grand_total` as the sum of the three resulting totals
with missing treated as 0, but stores None for `grand_total` whenever all
three resulting totals are zero-or-missing — including when all three are
present and equal to 0 — and stamps `latest_estimate_date` with the current
time. -/
theorem update_project_summary_grand_total (db : DB) (pid : ℕ) (hrs lab log : Option ℚ)
    (sid : Option ℕ) (p : Project)
    (hfind : db.projects.find? (fun q => q.id = pid) = some p) :
    ∃ p', (update_project_summary db pid hrs lab log sid).projects.find?
        (fun q => q.id = pid) = some p' ∧
      p'.hrs_estimator_total = overwrite hrs p.hrs_estimator_total ∧
      p'.lab_fees_total = overwrite lab p.lab_fees_total ∧
      p'.logistics_total = overwrite log p.logistics_total ∧
      p'.grand_total = (if (overwrite hrs p.hrs_estimator_total).getD 0 ≠ 0 ∨
            (overwrite lab p.lab_fees_total).getD 0 ≠ 0 ∨
            (overwrite log p.logistics_total).getD 0 ≠ 0 then
          some ((overwrite hrs p.hrs_estimator_total).getD 0 +
            (overwrite lab p.lab_fees_total).getD 0 +
            (overwrite log p.logistics_total).getD 0)
        else none) ∧
      p'.latest_estimate_date = some db.now := by
  unfold update_project_summary
  rw [hfind]
  dsimp only
  rw [find?_updateFirst (by intro x hx; exact hx) db.projects, hfind]
  exact ⟨_, rfl, rfl, rfl, rfl, rfl, rfl⟩

theorem update_project_summary_witness :
    exDB.projects.find? (fun q => q.id = 1) = some exProject ∧
    (∃ p', (update_project_summary exDB 1 (some 1) none none none).projects.find?
        (fun q => q.id = 1) = some p' ∧
      p'.hrs_estimator_total = overwrite (some 1) exProject.hrs_estimator_total ∧
      p'.lab_fees_total = overwrite none exProject.lab_fees_total ∧
      p'.logistics_total = overwrite none exProject.logistics_total ∧
      p'.grand_total = (if (overwrite (some 1) exProject.hrs_estimator_total).getD 0 ≠ 0 ∨
            (overwrite none exProject.lab_fees_total).getD 0 ≠ 0 ∨
            (overwrite none exProject.logistics_total).getD 0 ≠ 0 then
          some ((overwrite (some 1) exProject.hrs_estimator_total).getD 0 +
            (overwrite none exProject.lab_fees_total).getD 0 +
            (overwrite none exProject.logistics_total).getD 0)
        else none) ∧
      p'.latest_estimate_date = some exDB.now) :=
  ⟨rfl, update_project_summary_grand_total exDB 1 (some 1) none none none exProject rfl⟩

/-! ## C2: the HRS endpoint does not touch snapshots, projects or summaries -/

theorem applyHrsLabUpdate_fields (db : DB) (est : HRSEstimation)
    (e : String × String × String × String) :
    (applyHrsLabUpdate db est e).snapshots = db.snapshots ∧
    (applyHrsLabUpdate db est e).projects = db.projects ∧
    (applyHrsLabUpdate db est e).summaries = db.summaries ∧
    (applyHrsLabUpdate db est e).hrs_estimations = db.hrs_estimations := by
  unfold applyHrsLabUpdate
  dsimp only
  repeat' split
  all_goals exact ⟨rfl, rfl, rfl, rfl⟩

theorem update_lab_fees_fields (db : DB) (est : HRSEstimation) :
    (update_lab_fees_from_hrs db est).snapshots = db.snapshots ∧
    (update_lab_fees_from_hrs db est).projects = db.projects ∧
    (update_lab_fees_from_hrs db est).summaries = db.summaries ∧
    (update_lab_fees_from_hrs db est).hrs_estimations = db.hrs_estimations := by
  have H : ∀ (l : List (String × String × String × String)) (d : DB),
      ((l.foldl (fun acc e => applyHrsLabUpdate acc est e) d).snapshots = d.snapshots ∧
       (l.foldl (fun acc e => applyHrsLabUpdate acc est e) d).projects = d.projects ∧
       (l.foldl (fun acc e => applyHrsLabUpdate acc est e) d).summaries = d.summaries ∧
       (l.foldl (fun acc e => applyHrsLabUpdate acc est e) d).hrs_estimations =
         d.hrs_estimations) := by
    intro l
    induction l with
    | nil => intro d; exact ⟨rfl, rfl, rfl, rfl⟩
    | cons e es ih =>
      intro d
      have h1 := applyHrsLabUpdate_fields d est e
      have h2 := ih (applyHrsLabUpdate d est e)
      exact ⟨h2.1.trans h1.1, h2.2.1.trans h1.2.1, h2.2.2.1.trans h1.2.2.1,
        h2.2.2.2.trans h1.2.2.2⟩
  exact H hrsToLabMapping db

/-- C2 (amended): the HRS `create_estimate` endpoint persists the estimation
header (with its line-item rows) and syncs lab `Rate.sample_count` values,
but writes nothing to any estimate snapshot, to any project row, or to the
project summary table — regardless of the request's `project_name`.  Only
the Lab Fees engine writes to the snapshot store. -/
theorem hrs_create_estimate_db_effect (db : DB) (p : HRSEstimationCreate)
    (est : HRSEstimation) (db' : DB)
    (hok : create_estimate_db db p = .ok (est, db')) :
    db'.snapshots = db.snapshots ∧ db'.projects = db.projects ∧
    db'.summaries = db.summaries ∧
    db'.hrs_estimations = db.hrs_estimations ++ [est] := by
  unfold create_estimate_db at hok
  cases hce : create_estimate (lookupLaborRate db) p with
  | error e =>
    rw [hce] at hok
    exact absurd hok (by simp)
  | ok est0 =>
    rw [hce] at hok
    dsimp only at hok
    simp only [Except.ok.injEq, Prod.mk.injEq] at hok
    obtain ⟨he, hd⟩ := hok
    rw [← hd]
    have h := update_lab_fees_fields
      { db with hrs_estimations := db.hrs_estimations ++ [est0] } est0
    refine ⟨h.1, h.2.1, h.2.2.1, ?_⟩
    rw [h.2.2.2, he]

def exC2est : HRSEstimation :=
  match create_estimate_db exDB exHrsP with
  | .ok r => r.1
  | .error _ => exHrsDummy

def exC2db : DB :=
  match create_estimate_db exDB exHrsP with
  | .ok r => r.2
  | .error _ => exDB

/-- C2 counterexample: an HRS create-estimate request with a non-empty
`project_name` naming a project that has an active snapshot leaves that
snapshot's `hrs_estimator_data` slot untouched (still None) and leaves the
project rows and summary rows unchanged — the claimed snapshot write and
summary update do not happen. -/
theorem hrs_snapshot_not_written :
    exHrsP.project_name = some "Plant A" ∧
    create_estimate_db exDB exHrsP = .ok (exC2est, exC2db) ∧
    exC2db.snapshots = exDB.snapshots ∧
    exC2db.projects = exDB.projects ∧
    exC2db.summaries = exDB.summaries ∧
    exDB.snapshots.find? (activePred 1) = some exSnapA ∧
    exSnapA.hrs_estimator_data = none ∧
    exProject.hrs_estimator_total = none ∧ exProject.grand_total = none := by
  have hok : create_estimate_db exDB exHrsP = .ok (exC2est, exC2db) := rfl
  have h := hrs_create_estimate_db_effect exDB exHrsP exC2est exC2db hok
  exact ⟨rfl, hok, h.1, h.2.1, h.2.2.1, rfl, rfl, rfl, rfl⟩

theorem hrs_create_estimate_db_witness :
    create_estimate_db exDB exHrsP = .ok (exC2est, exC2db) ∧
    exC2db.snapshots = exDB.snapshots ∧ exC2db.projects = exDB.projects ∧
    exC2db.summaries = exDB.summaries ∧
    exC2db.hrs_estimations = exDB.hrs_estimations ++ [exC2est] :=
  ⟨rfl, (hrs_create_estimate_db_effect exDB exHrsP exC2est exC2db rfl).1,
   (hrs_create_estimate_db_effect exDB exHrsP exC2est exC2db rfl).2.1,
   (hrs_create_estimate_db_effect exDB exHrsP exC2est exC2db rfl).2.2.1,
   (hrs_create_estimate_db_effect exDB exHrsP exC2est exC2db rfl).2.2.2⟩

/-! ## C8: lab fees silent skip -/

theorem orderTotals_inner (db : DB) (tid : ℕ) (l : List (ℕ × ℚ)) (acc : ℚ × ℚ) :
    l.foldl (fun acc2 t =>
      match labRateLookup db tid t.1 with
      | none => acc2
      | some price => (acc2.1 + t.2, acc2.2 + price * t.2)) acc =
    (acc.1 + (l.map (fun t => if (labRateLookup db tid t.1).isSome then t.2 else 0)).sum,
     acc.2 + (l.map (fun t =>
       match labRateLookup db tid t.1 with
       | some price => price * t.2
       | none => 0)).sum) := by
  induction l generalizing acc with
  | nil => simp
  | cons t ts ih =>
    cases h : labRateLookup db tid t.1 with
    | none =>
      simp only [List.foldl_cons, List.map_cons, List.sum_cons, h]
      rw [ih]
      simp
    | some price =>
      simp only [List.foldl_cons, List.map_cons, List.sum_cons, h, Option.isSome_some, if_true]
      rw [ih]
      simp only [Prod.mk.injEq]
      constructor <;> ring

theorem orderTotals_spec (db : DB) (details : List (ℕ × List (ℕ × ℚ))) :
    orderTotals db details =
      ((details.map (fun e => (e.2.map (fun t =>
          if (labRateLookup db e.1 t.1).isSome then t.2 else 0)).sum)).sum,
       (details.map (fun e => (e.2.map (fun t =>
          match labRateLookup db e.1 t.1 with
          | some price => price * t.2
          | none => 0)).sum)).sum) := by
  have H : ∀ (l : List (ℕ × List (ℕ × ℚ))) (acc : ℚ × ℚ),
      l.foldl (fun acc e => e.2.foldl (fun acc2 t =>
        match labRateLookup db e.1 t.1 with
        | none => acc2
        | some price => (acc2.1 + t.2, acc2.2 + price * t.2)) acc) acc =
      (acc.1 + (l.map (fun e => (e.2.map (fun t =>
          if (labRateLookup db e.1 t.1).isSome then t.2 else 0)).sum)).sum,
       acc.2 + (l.map (fun e => (e.2.map (fun t =>
          match labRateLookup db e.1 t.1 with
          | some price => price * t.2
          | none => 0)).sum)).sum) := by
    intro l
    induction l with
    | nil => intro acc; simp
    | cons e es ih =>
      intro acc
      simp only [List.foldl_cons, List.map_cons, List.sum_cons]
      rw [orderTotals_inner, ih]
      simp only [Prod.mk.injEq]
      constructor <;> ring
  unfold orderTotals
  rw [H]
  simp

theorem get_or_create_project_ok (db : DB) (name : String) (h : ¬name = "") :
    ∃ pr db1, get_or_create_project db name = .ok (pr, db1) := by
  unfold get_or_create_project
  rw [if_neg h]
  cases h2 : pickLatest (db.projects.filter (fun p => p.name = name)) with
  | none => exact ⟨_, _, rfl⟩
  | some p => exact ⟨_, _, rfl⟩

theorem save_module_to_snapshot_ok (db : DB) (pn : Option String) (mn ins : String)
    (outs : Option OutputsBlob) :
    ∃ r db', save_module_to_snapshot db pn mn ins outs = .ok (r, db') := by
  unfold save_module_to_snapshot
  cases pn with
  | none => exact ⟨_, _, rfl⟩
  | some name =>
    dsimp only
    by_cases hn : name = ""
    · rw [if_pos hn]
      exact ⟨_, _, rfl⟩
    · rw [if_neg hn]
      obtain ⟨pr, db1, hget⟩ := get_or_create_project_ok db name hn
      rw [hget]
      exact ⟨_, _, rfl⟩

theorem processStaff_ok (db : DB) (l : List StaffAssignmentIn)
    (h : ∀ a ∈ l, (lookupLaborRate db a.role).isSome = true) :
    ∀ acc, ∃ out, processStaff db acc l = .ok out := by
  induction l with
  | nil => intro acc; exact ⟨acc, rfl⟩
  | cons a rest ih =>
    intro acc
    obtain ⟨rate, hr⟩ := Option.isSome_iff_exists.mp (h a (List.mem_cons_self a rest))
    unfold processStaff
    rw [hr]
    exact ih (fun b hb => h b (List.mem_cons_of_mem a hb)) _

/-- C8: Lab Fees silent skip — every (test, turnaround, quantity) triple whose
(test_id, turn_time_id) pair has a `Rate` row contributes its quantity to
`total_samples` and `price × quantity` to `total_lab_fees_cost`; triples
without a matching rate contribute nothing and raise no error, and (provided
every staff role is known) the order as a whole succeeds. -/
theorem lab_fees_silent_skip (db : DB) (order : LabFeesOrderCreate)
    (hstaff : ∀ a ∈ order.staff_assignments.getD [],
        (lookupLaborRate db a.role).isSome = true) :
    ∃ row db', create_lab_fees_order db order = .ok (row, db') ∧
      row.total_samples = ((order.order_details.getD []).map (fun e =>
        (e.2.map (fun t => if (labRateLookup db e.1 t.1).isSome then t.2 else 0)).sum)).sum ∧
      row.total_lab_fees_cost = ((order.order_details.getD []).map (fun e =>
        (e.2.map (fun t => match labRateLookup db e.1 t.1 with
          | some price => price * t.2
          | none => 0)).sum)).sum := by
  unfold create_lab_fees_order
  obtain ⟨st, hst⟩ := processStaff_ok db (order.staff_assignments.getD []) hstaff ([], [], [], 0)
  rw [hst]
  dsimp only
  obtain ⟨r2, db3, hsv⟩ := save_module_to_snapshot_ok
    (save_or_update_module_summary
      { db with lab_orders := db.lab_orders ++ [mkLabOrderRow db order st] }
      order.project_name "lab" (mkLabOrderRow db order st).total_cost)
    order.project_name "lab" ""
    (some { total_cost := some (mkLabOrderRow db order st).total_cost,
            total_logistics_cost := none })
  rw [hsv]
  refine ⟨mkLabOrderRow db order st, db3, rfl, ?_, ?_⟩
  · show (orderTotals db (order.order_details.getD [])).1 = _
    rw [orderTotals_spec]
  · show (orderTotals db (order.order_details.getD [])).2 = _
    rw [orderTotals_spec]

def exLabDB : DB :=
  { projects := [], snapshots := [], summaries := [], labor_rates := [],
    service_categories := [], tests := [], turn_times := [],
    lab_rates := [{ id := 1, test_id := 7, turn_time_id := 2, lab_id := 1, price := 38, sample_count := none }],
    hrs_estimations := [], lab_orders := [], next_project_id := 1, next_snapshot_id := 1,
    now := 10 }

def exOrder : LabFeesOrderCreate :=
  { project_name := some "Lab P", hrs_estimation_id := none,
    order_details := some [(7, [(2, 5), (9, 4)])], staff_assignments := none }

theorem lab_fees_silent_skip_witness :
    (∀ a ∈ exOrder.staff_assignments.getD [],
        (lookupLaborRate exLabDB a.role).isSome = true) ∧
    (∃ row db', create_lab_fees_order exLabDB exOrder = .ok (row, db') ∧
      row.total_samples = ((exOrder.order_details.getD []).map (fun e =>
        (e.2.map (fun t => if (labRateLookup exLabDB e.1 t.1).isSome then t.2 else 0)).sum)).sum ∧
      row.total_lab_fees_cost = ((exOrder.order_details.getD []).map (fun e =>
        (e.2.map (fun t => match labRateLookup exLabDB e.1 t.1 with
          | some price => price * t.2
          | none => 0)).sum)).sum) :=
  ⟨by simp [exOrder], lab_fees_silent_skip exLabDB exOrder (by simp [exOrder])⟩

/-! ## C7: logistics grand-total composition -/

theorem round2_optRound2 {α} (o : Option α) (g : α → ℚ) :
    round2 (optRound2 o g) = optRound2 o g := by
  cases o with
  | none => exact round2_zero
  | some x => exact round2_idem _

set_option maxHeartbeats 1000000 in
/-- C7: for every logistics estimate, `total_logistics_cost` is the
2-decimal rounding of the sum of the five stored cost components, and each
of the five components is itself already rounded to 2 decimals (a fixed
point of `round2`). -/
theorem logistics_grand_total_composition (rates : String → Option ℚ)
    (p : LogisticsEstimationCreate) :
    (create_logistics_estimate rates p).total_logistics_cost =
      round2 ((create_logistics_estimate rates p).total_driving_cost +
        (create_logistics_estimate rates p).total_flight_cost +
        (create_logistics_estimate rates p).total_rental_cost +
        (create_logistics_estimate rates p).total_lodging_room_cost +
        (create_logistics_estimate rates p).total_per_diem_cost) ∧
    round2 (create_logistics_estimate rates p).total_driving_cost =
      (create_logistics_estimate rates p).total_driving_cost ∧
    round2 (create_logistics_estimate rates p).total_flight_cost =
      (create_logistics_estimate rates p).total_flight_cost ∧
    round2 (create_logistics_estimate rates p).total_rental_cost =
      (create_logistics_estimate rates p).total_rental_cost ∧
    round2 (create_logistics_estimate rates p).total_lodging_room_cost =
      (create_logistics_estimate rates p).total_lodging_room_cost ∧
    round2 (create_logistics_estimate rates p).total_per_diem_cost =
      (create_logistics_estimate rates p).total_per_diem_cost :=
  ⟨rfl, round2_idem _, round2_optRound2 _ _, round2_optRound2 _ _,
    round2_idem _, round2_idem _⟩

/-! ## C6: Anchorage flat-fee override -/

/-- C6: for a driving-mode roundtrip block whose `project_location` is
"Anchorage" up to case and surrounding whitespace and which supplies
`anchorage_flat_fee`, the roundtrip vehicle cost is the flat fee times the
project duration in days, and the supplied `cost_per_mile` / `mpg` /
`cost_per_gallon` values are ignored entirely (the whole computed estimate
is unchanged by varying them). -/
theorem anchorage_override (rates : String → Option ℚ) (p : LogisticsEstimationCreate)
    (rt : RoundtripDrivingIn) (fee : ℚ)
    (hmode : p.site_access_mode = "driving")
    (hrt : p.roundtrip_driving = some rt)
    (hanch : _is_anchorage rt.project_location = true)
    (hfee : rt.anchorage_flat_fee = some fee)
    (hdur : 1 ≤ rt.project_duration_days) :
    (∀ (days : ℤ) (miles : ℚ), roundtripVehicleCost rt days miles = fee * (days : ℚ)) ∧
    (∀ miles : ℚ, roundtripVehicleCost rt (max rt.project_duration_days 1) miles =
      fee * (rt.project_duration_days : ℚ)) ∧
    (∀ cpm mpg cpg : Option ℚ,
      create_logistics_estimate rates
        { p with roundtrip_driving := some { rt with cost_per_mile := cpm, mpg := mpg, cost_per_gallon := cpg } } =
      create_logistics_estimate rates p) := by
  have hveh : ∀ (days : ℤ) (miles : ℚ),
      roundtripVehicleCost rt days miles = fee * (days : ℚ) := by
    intro days miles
    unfold roundtripVehicleCost
    rw [if_pos hanch, hfee]
    rfl
  refine ⟨hveh, ?_, ?_⟩
  · intro miles
    rw [hveh, max_eq_left hdur]
  · intro cpm mpg cpg
    have hblock : ∀ staff sh sc,
        roundtripBlock (_rate_for_role rates) (effRateMultiplier p.rate_multiplier) staff
          p.professional_role p.num_staff p.site_access_mode
          (some { rt with cost_per_mile := cpm, mpg := mpg, cost_per_gallon := cpg }) sh sc =
        roundtripBlock (_rate_for_role rates) (effRateMultiplier p.rate_multiplier) staff
          p.professional_role p.num_staff p.site_access_mode (some rt) sh sc := by
      intro staff sh sc
      unfold roundtripBlock
      dsimp only
      rw [if_pos hmode, if_pos hmode]
      have hv : ∀ (days : ℤ) (miles : ℚ),
          roundtripVehicleCost { rt with cost_per_mile := cpm, mpg := mpg, cost_per_gallon := cpg } days miles =
          roundtripVehicleCost rt days miles := by
        intro days miles
        unfold roundtripVehicleCost
        rw [if_pos hanch, if_pos hanch]
      simp only [hv]
    have hsl : staffListOf { p with roundtrip_driving := some { rt with cost_per_mile := cpm, mpg := mpg, cost_per_gallon := cpg } } =
        staffListOf p := rfl
    have hrtOf : rtOf (_rate_for_role rates)
        { p with roundtrip_driving := some { rt with cost_per_mile := cpm, mpg := mpg, cost_per_gallon := cpg } } =
        rtOf (_rate_for_role rates) p := by
      unfold rtOf
      dsimp only
      rw [hsl, hrt]
      exact hblock _ _ _
    have hddOf : ddOf (_rate_for_role rates)
        { p with roundtrip_driving := some { rt with cost_per_mile := cpm, mpg := mpg, cost_per_gallon := cpg } } =
        ddOf (_rate_for_role rates) p := by
      unfold ddOf
      dsimp only
      rw [hsl, hrtOf]
    have hflOf : flOf (_rate_for_role rates)
        { p with roundtrip_driving := some { rt with cost_per_mile := cpm, mpg := mpg, cost_per_gallon := cpg } } =
        flOf (_rate_for_role rates) p := by
      unfold flOf
      dsimp only
      rw [hsl, hddOf]
    have hren : renOf { p with roundtrip_driving := some { rt with cost_per_mile := cpm, mpg := mpg, cost_per_gallon := cpg } } =
        renOf p := rfl
    have hlodg : lodgOf { p with roundtrip_driving := some { rt with cost_per_mile := cpm, mpg := mpg, cost_per_gallon := cpg } } =
        lodgOf p := rfl
    have hbody : logisticsBody (_rate_for_role rates)
        { p with roundtrip_driving := some { rt with cost_per_mile := cpm, mpg := mpg, cost_per_gallon := cpg } } =
        logisticsBody (_rate_for_role rates) p := by
      unfold logisticsBody
      dsimp only
      rw [hsl, hrtOf, hddOf, hflOf, hren, hlodg]
    unfold create_logistics_estimate createLogisticsCore
    rw [hbody]

/-! ## C10: unknown role treated as zero hourly rate in logistics -/

theorem staffLabor_single_cost_zero (rateQ : String → ℚ) (mult hpp : ℚ) (role : String)
    (c : ℤ) (sh sc : RoleMap) (h0 : rateQ role = 0) :
    (staffLabor rateQ mult hpp [⟨role, c⟩] ⟨sh, sc, 0, 0⟩).costTotal = 0 := by
  simp [staffLabor, h0, round2_zero]

theorem roundtripBlock_cost_zero (rateQ : String → ℚ) (mult : ℚ) (role : String) (c : ℤ)
    (prole : Option String) (ns : ℤ) (mode : String) (rtIn : Option RoundtripDrivingIn)
    (sh sc : RoleMap) (h0 : rateQ role = 0) :
    (roundtripBlock rateQ mult [⟨role, c⟩] prole ns mode rtIn sh sc).laborCost = 0 := by
  unfold roundtripBlock
  cases rtIn with
  | none => rfl
  | some rt =>
    dsimp only
    by_cases hm : mode = "driving"
    · rw [if_pos hm]
      dsimp only
      exact staffLabor_single_cost_zero rateQ mult _ role c sh sc h0
    · rw [if_neg hm]

theorem dailyBlock_cost_zero (rateQ : String → ℚ) (mult : ℚ) (role : String) (c : ℤ)
    (prole : Option String) (ns : ℤ) (anch : Bool) (rtDays : ℤ)
    (ddIn : Option DailyDrivingIn) (sh sc : RoleMap) (h0 : rateQ role = 0) :
    (dailyBlock rateQ mult [⟨role, c⟩] prole ns anch rtDays ddIn sh sc).laborCost = 0 := by
  unfold dailyBlock
  cases ddIn with
  | none => rfl
  | some dd =>
    dsimp only
    exact staffLabor_single_cost_zero rateQ mult _ role c sh sc h0

theorem flightBlock_cost_zero {rateQ : String → ℚ} {mult : ℚ} {role : String} {c : ℤ}
    {prole : Option String} {ns : ℤ} {mode : String} {isLocal : Bool}
    {fIn : Option FlightsIn} {sh sc : RoleMap} {fr : FlightRaw}
    (h0 : rateQ role = 0)
    (hf : (flightBlock rateQ mult [⟨role, c⟩] prole ns mode isLocal fIn sh sc).1 = some fr) :
    fr.laborCost = 0 := by
  unfold flightBlock at hf
  cases fIn with
  | none => simp at hf
  | some f =>
    dsimp only at hf
    split at hf
    · dsimp only at hf
      rw [Option.some.injEq] at hf
      rw [← hf]
      exact staffLabor_single_cost_zero rateQ mult _ role c sh sc h0
    · simp at hf

theorem core_labor_costs_zero (rateQ : String → ℚ) (p : LogisticsEstimationCreate)
    (role : String) (c : ℤ) (h0 : rateQ role = 0)
    (hn : staffListOf p = [⟨role, c⟩]) :
    (createLogisticsCore rateQ p).total_driving_labor_cost = 0 ∧
    (createLogisticsCore rateQ p).total_flight_labor_cost = 0 := by
  have hd : (createLogisticsCore rateQ p).total_driving_labor_cost =
      round2 ((rtOf rateQ p).laborCost + (ddOf rateQ p).laborCost) := rfl
  have hf : (createLogisticsCore rateQ p).total_flight_labor_cost =
      optRound2 (flOf rateQ p).1 (fun fr => fr.laborCost) := rfl
  constructor
  · rw [hd]
    unfold ddOf rtOf
    rw [hn]
    rw [roundtripBlock_cost_zero rateQ _ role c _ _ _ _ _ _ h0,
      dailyBlock_cost_zero rateQ _ role c _ _ _ _ _ _ _ h0]
    simp [round2_zero]
  · rw [hf]
    unfold optRound2 flOf
    rw [hn]
    split
    · next fr hfr =>
      simp only [flightBlock_cost_zero h0 hfr]
      exact round2_zero
    · rfl

/-- C10: a staff role (or the legacy `professional_role`) with no matching
`LaborRate` row causes no error in the logistics engine: the whole computed
estimate equals the one computed with that role's hourly rate set to 0, so
its labor hours still accumulate but it contributes zero labor cost; in
particular a single-entry staff list with an unknown role yields zero
driving and flight labor cost. -/
theorem logistics_unknown_role_fallback (rates : String → Option ℚ)
    (p : LogisticsEstimationCreate) (role : String)
    (hrole : rates role = none) :
    create_logistics_estimate rates p =
      create_logistics_estimate (fun r => if r = role then some 0 else rates r) p ∧
    (∀ c : ℤ, p.staff = some [{ role := role, count := c }] → 0 < c →
      (create_logistics_estimate rates p).total_driving_labor_cost = 0 ∧
      (create_logistics_estimate rates p).total_flight_labor_cost = 0) := by
  constructor
  · unfold create_logistics_estimate
    have hfr : _rate_for_role rates =
        _rate_for_role (fun r => if r = role then some 0 else rates r) := by
      funext r
      unfold _rate_for_role _get_labor_rate
      dsimp only
      by_cases he : r = ""
      · rw [if_pos he, if_pos he]
      · rw [if_neg he, if_neg he]
        by_cases hrr : r = role
        · rw [if_pos hrr, hrr, hrole]
          rfl
        · rw [if_neg hrr]
    rw [hfr]
  · intro c hstaff hc
    have hrz : _rate_for_role rates role = 0 := by
      unfold _rate_for_role _get_labor_rate
      by_cases he : role = ""
      · rw [if_pos he]
        rfl
      · rw [if_neg he, hrole]
        rfl
    have hnorm : staffListOf p = [⟨role, c⟩] := by
      unfold staffListOf
      rw [hstaff]
      unfold normalizeStaff
      simp [hc]
    exact core_labor_costs_zero (_rate_for_role rates) p role c hrz hnorm

/-- An Anchorage roundtrip-driving payload (flat fee 250, duration 3 days,
with cost_per_mile/mpg/cost_per_gallon all supplied). -/
def exAnchRt : RoundtripDrivingIn :=
  { project_location := some "Anchorage"
    num_vehicles := 1
    one_way_miles := 40
    drive_time_hours := some 1
    project_duration_days := 3
    mpg := some 10
    cost_per_gallon := some 4
    cost_per_mile := some 2
    anchorage_flat_fee := some 250 }

/-- A driving-mode logistics payload carrying `exAnchRt`. -/
def exAnchP : LogisticsEstimationCreate :=
  { project_name := some "Anchorage Job"
    site_access_mode := "driving"
    is_local_project := false
    use_client_vehicle := false
    professional_role := some "PM"
    num_staff := 2
    staff := none
    rate_multiplier := 1
    per_diem_rate := 0
    roundtrip_driving := some exAnchRt
    daily_driving := none
    flights := none
    rental := none
    lodging := none }

def exAnchRates : String → Option ℚ := fun _ => some 50

theorem anchorage_override_witness :
    roundtripVehicleCost exAnchRt 3 9999 = 250 * ((3 : ℤ) : ℚ) ∧
    create_logistics_estimate exAnchRates
        { exAnchP with roundtrip_driving := some { exAnchRt with cost_per_mile := some 77, mpg := some 5, cost_per_gallon := some 9 } } =
      create_logistics_estimate exAnchRates exAnchP :=
  ⟨(anchorage_override exAnchRates exAnchP exAnchRt 250 rfl rfl (by decide) rfl
      (by decide)).1 3 9999,
    (anchorage_override exAnchRates exAnchP exAnchRt 250 rfl rfl (by decide) rfl
      (by decide)).2.2 (some 77) (some 5) (some 9)⟩

/-- A rate table with no rows at all: every role is unknown. -/
def exURates : String → Option ℚ := fun _ => none

/-- A logistics payload whose only staff entry names an unknown role. -/
def exUp : LogisticsEstimationCreate :=
  { project_name := none
    site_access_mode := "driving"
    is_local_project := false
    use_client_vehicle := false
    professional_role := none
    num_staff := 0
    staff := some [{ role := "Unknown Specialist", count := 2 }]
    rate_multiplier := 1
    per_diem_rate := 0
    roundtrip_driving := none
    daily_driving := none
    flights := none
    rental := none
    lodging := none }

theorem logistics_unknown_role_fallback_witness :
    (create_logistics_estimate exURates exUp).total_driving_labor_cost = 0 ∧
    (create_logistics_estimate exURates exUp).total_flight_labor_cost = 0 :=
  (logistics_unknown_role_fallback exURates exUp "Unknown Specialist" rfl).2 2 rfl
    (by decide)

end Satori
